import Mathlib

/-!
# Verification of the chores state-machine engine

A shallow embedding of the wired-in core of the `chores` Home Assistant
integration: `chore_core.py` (the 5-state chore FSM), `triggers.py`
(the five trigger variants used by `Chore`), `completions.py`
(`BaseCompletion` and the five completion variants), `resets.py`
(the five reset policies and `create_reset`), and the event-firing part
of `coordinator.py`.

Modelling conventions:
* timestamps (`dt_util.utcnow()` / `dt_util.now()`) are natural-number
  seconds from a single clock `Env.now`; local wall-clock projections
  (day index, minute of day, weekday) are derived from it;
* Home Assistant entity readings (`hass.states.get(e).state`) are an
  environment map `Env.states : String → Option String`, and Python
  `float(...)` parsing is the environment oracle
  `Env.parseFloat : String → Option Rat` (`none` models a raised
  `ValueError`);
* event listeners, logging and the storage backend are outside the
  embedded fragment; only the state mutations the core performs are
  modelled.
-/

namespace Chores

/-- The `SubState` from `const.py`: shared trigger/completion progress states. -/
inductive SubState where
  | idle
  | active
  | done
deriving DecidableEq, Repr

/-- The `ChoreState` from `const.py`: the 5-state chore machine. -/
inductive ChoreState where
  | inactive
  | pending
  | due
  | started
  | completed
deriving DecidableEq, Repr

/-- String value of a `ChoreState` (its `StrEnum` value). -/
def ChoreState.value : ChoreState → String
  | .inactive => "inactive"
  | .pending => "pending"
  | .due => "due"
  | .started => "started"
  | .completed => "completed"

/-- The completion types registered in `COMPLETION_FACTORY` of the wired
`completions.py`. -/
inductive CompletionType where
  | manual
  | sensorState
  | contact
  | contactCycle
  | presenceCycle
deriving DecidableEq, Repr

/-- The `StrEnum` value of a completion type. -/
def CompletionType.value : CompletionType → String
  | .manual => "manual"
  | .sensorState => "sensor_state"
  | .contact => "contact"
  | .contactCycle => "contact_cycle"
  | .presenceCycle => "presence_cycle"

/-- The `steps_total` class attribute of each completion variant. -/
def CompletionType.stepsTotal : CompletionType → Nat
  | .manual => 1
  | .sensorState => 1
  | .contact => 1
  | .contactCycle => 2
  | .presenceCycle => 2

/-- The external world as the engine reads it: entity states, float
parsing, and the wall clock (seconds). -/
structure Env where
  states : String → Option String
  parseFloat : String → Option Rat
  now : Nat

/-- Day index of an instant (`dt_util.now()` date part). -/
def Env.day (env : Env) : Nat := env.now / 86400

/-- Minute of the local day of the current instant. -/
def Env.minuteOfDay (env : Env) : Nat := env.now % 86400 / 60

/-- Weekday of the current instant, Monday = 0 as in Python. -/
def Env.weekday (env : Env) : Nat := env.day % 7

/-- An entity reading counts as unreadable when the entity is missing or
its state string is `unknown` / `unavailable` (the membership test used
throughout `triggers.py`). -/
def Env.unreadable (env : Env) (entity : String) : Prop :=
  env.states entity = none ∨ env.states entity = some "unknown" ∨
    env.states entity = some "unavailable"

instance (env : Env) (entity : String) : Decidable (env.unreadable entity) := by
  unfold Env.unreadable; infer_instance

/-! ## Completions (`completions.py`, the wired `BaseCompletion`)

The five registered completion variants only differ in their listeners
(not embedded) and constant `steps_total`; every state mutation a
`Chore` performs on its completion goes through the `BaseCompletion`
methods below, so one record suffices, tagged with its type. -/

/-- The mutable state of a `BaseCompletion` (the `_sensor_config` and
listener bookkeeping are not part of the embedded fragment). -/
structure Completion where
  ctype : CompletionType
  state : SubState
  stateEnteredAt : Nat
  stepsDone : Nat
  enabled : Bool
deriving DecidableEq, Repr

namespace Completion

/-- The `BaseCompletion.enable` (lines 65-67): only flips the flag. -/
def enable (c : Completion) : Completion :=
  { c with enabled := true }

/-- The `BaseCompletion.disable`. -/
def disable (c : Completion) : Completion :=
  { c with enabled := false }

/-- The `BaseCompletion.set_state`: returns the updated completion and
whether it changed. -/
def set_state (c : Completion) (newState : SubState) (now : Nat) :
    Completion × Bool :=
  if newState = c.state then (c, false)
  else
    ({ c with
        state := newState
        stateEnteredAt := now
        stepsDone :=
          if newState = .active then 1
          else if newState = .done then c.ctype.stepsTotal
          else c.stepsDone }, true)

/-- The `BaseCompletion.reset` (all wired variants have a trivial
`_reset_internal`). -/
def reset (c : Completion) (now : Nat) : Completion :=
  { c with
      state := .idle
      stateEnteredAt := now
      stepsDone := 0
      enabled := false }

/-- The persisted dict of `BaseCompletion.snapshot_state`
(`_snapshot_internal` is empty for every wired variant). -/
structure Snap where
  state : SubState
  stateEnteredAt : Nat
  stepsDone : Nat
  enabled : Bool
deriving DecidableEq, Repr

/-- The `BaseCompletion.snapshot_state`. -/
def snapshot_state (c : Completion) : Snap :=
  { state := c.state
    stateEnteredAt := c.stateEnteredAt
    stepsDone := c.stepsDone
    enabled := c.enabled }

/-- The `BaseCompletion.restore_state` applied to a snapshot produced by
`snapshot_state` (all of whose keys are present). -/
def restore_state (c : Completion) (data : Snap) : Completion :=
  { c with
      state := data.state
      stateEnteredAt := data.stateEnteredAt
      stepsDone := data.stepsDone
      enabled := data.enabled }

end Completion

/-! ## Triggers (`triggers.py`, wired into `chore_core.py`)

`BaseTrigger` keeps `_state` / `_state_entered_at`; each variant adds
its own condition-tracking fields and (for the time-based variants)
overrides `evaluate`. The listener callbacks are not embedded; the
claims under verification only exercise the polled `evaluate` path,
`set_state` and `reset`. -/

/-- The `BaseTrigger` fields shared by every variant. -/
structure TrigBase where
  state : SubState
  stateEnteredAt : Nat
deriving DecidableEq, Repr

/-- The `BaseTrigger.set_state`: returns the updated base and whether the
state changed. -/
def TrigBase.set_state (b : TrigBase) (newState : SubState) (now : Nat) :
    TrigBase × Bool :=
  if newState = b.state then (b, false)
  else ({ state := newState, stateEnteredAt := now }, true)

/-- The `PowerCycleTrigger` private fields (configuration and condition
tracking). -/
structure PowerCycleData where
  powerSensor : Option String
  currentSensor : Option String
  powerThreshold : Rat
  currentThreshold : Rat
  cooldownMinutes : Nat
  powerDroppedAt : Option Nat
  machineRunning : Bool
deriving DecidableEq, Repr

/-- The `StateChangeTrigger` private fields. -/
structure StateChangeData where
  entityId : String
  fromState : String
  toState : String
deriving DecidableEq, Repr

/-- The `DailyTrigger` private fields; the configured time is minutes of the
day, the gate is `(entity_id, state)` when configured. -/
structure DailyData where
  timeM : Nat
  gate : Option (String × String)
  timeFiredToday : Bool
deriving DecidableEq, Repr

/-- The `WeeklyTrigger` private fields; schedule entries are
`(weekday, minutes of day)` with Monday = 0. -/
structure WeeklyData where
  schedule : List (Nat × Nat)
  gate : Option (String × String)
  timeFiredToday : Bool
deriving DecidableEq, Repr

/-- The `DurationTrigger` private fields. -/
structure DurationData where
  entityId : String
  targetState : String
  durationHours : Rat
  gate : Option (String × String)
  stateSince : Option Nat
  durationElapsed : Bool
deriving DecidableEq, Repr

/-- The closed set of trigger variants registered in `TRIGGER_FACTORY`. -/
inductive TriggerData where
  | powerCycle (d : PowerCycleData)
  | stateChange (d : StateChangeData)
  | daily (d : DailyData)
  | weekly (d : WeeklyData)
  | duration (d : DurationData)
deriving DecidableEq, Repr

/-- A trigger: the `BaseTrigger` state plus variant data. -/
structure Trigger where
  base : TrigBase
  data : TriggerData
deriving DecidableEq, Repr

/-- The trigger's reported `state` property. -/
def Trigger.state (t : Trigger) : SubState := t.base.state

/-- The `_is_gate_met` shared by the daily/weekly/duration triggers: met when
no gate is configured, or the gate entity currently reads the expected
state. -/
def gateMet (env : Env) (gate : Option (String × String)) : Bool :=
  match gate with
  | none => true
  | some (entity, expected) =>
    match env.states entity with
    | some s => s = expected
    | none => false

/-- One sensor block of `PowerCycleTrigger._is_above_threshold`: returns
(contributes to `any_readable`, contributes to `above`). A present but
non-numeric reading contributes `(true, false)` because `any_readable`
is set before `float()` is attempted. -/
def readAbove (env : Env) (entity : Option String) (threshold : Rat) :
    Bool × Bool :=
  match entity with
  | none => (false, false)
  | some e =>
    match env.states e with
    | none => (false, false)
    | some s =>
      if s = "unknown" ∨ s = "unavailable" then (false, false)
      else
        match env.parseFloat s with
        | some v => (true, decide (v > threshold))
        | none => (true, false)

/-- The `PowerCycleTrigger._is_above_threshold`: `none` when no configured
sensor was readable. -/
def isAboveThreshold (d : PowerCycleData) (env : Env) : Option Bool :=
  let power := readAbove env d.powerSensor d.powerThreshold
  let current := readAbove env d.currentSensor d.currentThreshold
  if power.1 || current.1 then some (power.2 || current.2) else none

/-- The `PowerCycleTrigger._evaluate_power` (the state-change handler body). -/
def evaluatePower (b : TrigBase) (d : PowerCycleData) (env : Env) :
    TrigBase × PowerCycleData :=
  match isAboveThreshold d env with
  | some true =>
    let d := { d with machineRunning := true, powerDroppedAt := none }
    if b.state = .idle then ((b.set_state .active env.now).1, d) else (b, d)
  | some false =>
    if d.machineRunning ∧ d.powerDroppedAt = none then
      (b, { d with powerDroppedAt := some env.now })
    else (b, d)
  | none => (b, d)

/-- The `PowerCycleTrigger.evaluate`: completes the cooldown on poll. -/
def powerEvaluate (b : TrigBase) (d : PowerCycleData) (env : Env) :
    TrigBase × PowerCycleData :=
  match d.powerDroppedAt with
  | some droppedAt =>
    if b.state = .active ∧ (env.now : Int) - droppedAt ≥ d.cooldownMinutes * 60 then
      ((b.set_state .done env.now).1, { d with machineRunning := false })
    else (b, d)
  | none => (b, d)

/-- The shared fire step of `DailyTrigger`/`WeeklyTrigger.evaluate`:
mark fired, then `done`, or `active` when a configured gate is unmet. -/
def timeFire (b : TrigBase) (gate : Option (String × String)) (env : Env) :
    TrigBase :=
  if gate.isSome then
    if gateMet env gate then (b.set_state .done env.now).1
    else (b.set_state .active env.now).1
  else (b.set_state .done env.now).1

/-- The `DailyTrigger.evaluate` (startup/poll recovery path). -/
def dailyEvaluate (b : TrigBase) (d : DailyData) (env : Env) :
    TrigBase × DailyData :=
  if b.state = .idle ∧ ¬d.timeFiredToday then
    if env.minuteOfDay ≥ d.timeM then
      (timeFire b d.gate env, { d with timeFiredToday := true })
    else (b, d)
  else (b, d)

/-- The `WeeklyTrigger._todays_trigger_time`: first schedule entry for the
given weekday. -/
def todaysTriggerTime (schedule : List (Nat × Nat)) (wd : Nat) : Option Nat :=
  match schedule with
  | [] => none
  | (w, tm) :: rest => if w = wd then some tm else todaysTriggerTime rest wd

/-- The `WeeklyTrigger.evaluate`. -/
def weeklyEvaluate (b : TrigBase) (d : WeeklyData) (env : Env) :
    TrigBase × WeeklyData :=
  if b.state = .idle ∧ ¬d.timeFiredToday then
    match todaysTriggerTime d.schedule env.weekday with
    | some tm =>
      if env.minuteOfDay ≥ tm then
        (timeFire b d.gate env, { d with timeFiredToday := true })
      else (b, d)
    | none => (b, d)
  else (b, d)

/-- The duration trigger's readable check of the watched entity: `true`
when the entity is present, not `unknown`/`unavailable`, and in the
target state. -/
def durInTarget (env : Env) (d : DurationData) : Bool :=
  match env.states d.entityId with
  | some s => s ≠ "unknown" ∧ s ≠ "unavailable" ∧ s = d.targetState
  | none => false

/-- Readable and confirmed out of the target state (the safety check of
`DurationTrigger.evaluate`, which treats unreadable as still-in-target). -/
def durOutOfTarget (env : Env) (d : DurationData) : Bool :=
  match env.states d.entityId with
  | some s => s ≠ "unknown" ∧ s ≠ "unavailable" ∧ s ≠ d.targetState
  | none => false

/-- First block of `DurationTrigger.evaluate`: startup recovery into
`active` when the entity already reads the target state. -/
def durationIdleStep (b : TrigBase) (d : DurationData) (env : Env) :
    TrigBase × DurationData :=
  if b.state = .idle then
    if durInTarget env d then
      (((b.set_state .active env.now).1),
        { d with stateSince := some (d.stateSince.getD env.now) })
    else (b, d)
  else (b, d)

/-- Second block of `DurationTrigger.evaluate`: the safety check, the
elapsed-duration check and the gate wait. -/
def durationActiveStep (b : TrigBase) (d : DurationData) (env : Env) :
    TrigBase × DurationData :=
  if b.state = .active then
    match d.stateSince with
    | some since =>
      if ¬d.durationElapsed then
        if durOutOfTarget env d then
          ((b.set_state .idle env.now).1, { d with stateSince := none })
        else
          if (((env.now : Int) - since : Int) : Rat) ≥ d.durationHours * 3600 then
            let d := { d with durationElapsed := true }
            if d.gate.isSome then
              if gateMet env d.gate then ((b.set_state .done env.now).1, d)
              else (b, d)
            else ((b.set_state .done env.now).1, d)
          else (b, d)
      else
        if d.gate.isSome then
          if gateMet env d.gate then ((b.set_state .done env.now).1, d)
          else (b, d)
        else (b, d)
    | none => (b, d)
  else (b, d)

/-- The `DurationTrigger.evaluate`: both blocks run in the same call, as in
the source. -/
def durationEvaluate (b : TrigBase) (d : DurationData) (env : Env) :
    TrigBase × DurationData :=
  let r := durationIdleStep b d env
  durationActiveStep r.1 r.2 env

namespace Trigger

/-- The `evaluate` dispatch: the time-based variants override it;
`StateChangeTrigger` inherits the default (returns the state, mutating
nothing). -/
def evaluate (t : Trigger) (env : Env) : Trigger :=
  match t.data with
  | .powerCycle d =>
    let r := powerEvaluate t.base d env
    { base := r.1, data := .powerCycle r.2 }
  | .stateChange _ => t
  | .daily d =>
    let r := dailyEvaluate t.base d env
    { base := r.1, data := .daily r.2 }
  | .weekly d =>
    let r := weeklyEvaluate t.base d env
    { base := r.1, data := .weekly r.2 }
  | .duration d =>
    let r := durationEvaluate t.base d env
    { base := r.1, data := .duration r.2 }

/-- The `BaseTrigger.set_state` lifted to the trigger (used by `force_due`). -/
def set_state (t : Trigger) (newState : SubState) (now : Nat) : Trigger :=
  { t with base := (t.base.set_state newState now).1 }

/-- The `_reset_internal` of each variant. -/
def resetInternal : TriggerData → TriggerData
  | .powerCycle d => .powerCycle { d with powerDroppedAt := none, machineRunning := false }
  | .stateChange d => .stateChange d
  | .daily d => .daily { d with timeFiredToday := false }
  | .weekly d => .weekly { d with timeFiredToday := false }
  | .duration d => .duration { d with stateSince := none, durationElapsed := false }

/-- The `BaseTrigger.reset`: `set_state(idle)` then `_reset_internal`. -/
def reset (t : Trigger) (now : Nat) : Trigger :=
  let t := t.set_state .idle now
  { t with data := resetInternal t.data }

/-- The variant-specific keys of `_snapshot_internal`. -/
inductive DynSnap where
  | powerCycle (machineRunning : Bool) (powerDroppedAt : Option Nat)
  | stateChange
  | daily (timeFiredToday : Bool)
  | weekly (timeFiredToday : Bool)
  | duration (stateSince : Option Nat) (durationElapsed : Bool)
deriving DecidableEq, Repr

/-- The persisted dict of `BaseTrigger.snapshot_state`. -/
structure Snap where
  state : SubState
  stateEnteredAt : Nat
  dyn : DynSnap
deriving DecidableEq, Repr

/-- The `BaseTrigger.snapshot_state` plus each variant's
`_snapshot_internal`. -/
def snapshot_state (t : Trigger) : Snap :=
  { state := t.base.state
    stateEnteredAt := t.base.stateEnteredAt
    dyn :=
      match t.data with
      | .powerCycle d => .powerCycle d.machineRunning d.powerDroppedAt
      | .stateChange _ => .stateChange
      | .daily d => .daily d.timeFiredToday
      | .weekly d => .weekly d.timeFiredToday
      | .duration d => .duration d.stateSince d.durationElapsed }

/-- The `_restore_internal` of each variant. Snapshots are restored into a
trigger built from the same configuration, so the variant kinds match;
a kind mismatch reads the `.get(...)` defaults. -/
def restoreInternal (data : TriggerData) (dyn : DynSnap) : TriggerData :=
  match data with
  | .powerCycle d =>
    match dyn with
    | .powerCycle mr pda => .powerCycle { d with machineRunning := mr, powerDroppedAt := pda }
    | _ => .powerCycle { d with machineRunning := false, powerDroppedAt := none }
  | .stateChange d => .stateChange d
  | .daily d =>
    match dyn with
    | .daily f => .daily { d with timeFiredToday := f }
    | _ => .daily { d with timeFiredToday := false }
  | .weekly d =>
    match dyn with
    | .weekly f => .weekly { d with timeFiredToday := f }
    | _ => .weekly { d with timeFiredToday := false }
  | .duration d =>
    match dyn with
    | .duration ss de => .duration { d with stateSince := ss, durationElapsed := de }
    | _ => .duration { d with stateSince := none, durationElapsed := false }

/-- The `BaseTrigger.restore_state` applied to a snapshot produced by
`snapshot_state` (all keys present). -/
def restore_state (t : Trigger) (data : Snap) : Trigger :=
  { base := { state := data.state, stateEnteredAt := data.stateEnteredAt }
    data := restoreInternal t.data data.dyn }

end Trigger

/-! ## Reset policies (`resets.py`) -/

/-- The reset policy variants; `delay` keeps its configured minutes,
the time-based policies their configured local times (minutes of day)
or weekly `(weekday, minutes)` schedule. -/
inductive Reset where
  | delay (minutes : Int)
  | dailyReset (timeM : Nat)
  | implicitDaily (timeM : Nat)
  | implicitWeekly (schedule : List (Nat × Nat))
  | implicitEvent
deriving DecidableEq, Repr

/-- The `_next_occurrence_after` of `DailyReset`/`ImplicitDailyReset`
(seconds): today's occurrence of the configured time, bumped a day when
`after` is already past it. -/
def nextOccurrenceAfter (after : Nat) (timeM : Nat) : Nat :=
  let candidate := after / 86400 * 86400 + timeM * 60
  if after ≥ candidate then candidate + 86400 else candidate

/-- One candidate of `ImplicitWeeklyReset._next_occurrence_after`. -/
def weeklyCandidate (after : Nat) (entry : Nat × Nat) : Nat :=
  let day := after / 86400
  let wd := day % 7
  let daysAhead := if entry.1 < wd then entry.1 + 7 - wd else entry.1 - wd
  let candidate := (day + daysAhead) * 86400 + entry.2 * 60
  if candidate ≤ after then candidate + 7 * 86400 else candidate

/-- The `ImplicitWeeklyReset._next_occurrence_after`: earliest candidate,
or a day later when the schedule is empty (the guard in the source). -/
def nextWeeklyAfter (after : Nat) (schedule : List (Nat × Nat)) : Nat :=
  match (schedule.map (weeklyCandidate after)).min? with
  | some best => best
  | none => after + 86400

/-- The `should_reset` of each reset variant; `completedAt` is the instant
the chore entered `completed` (its `_state_entered_at`). -/
def Reset.should_reset (r : Reset) (completedAt : Nat) (env : Env) : Bool :=
  match r with
  | .delay minutes =>
    if minutes ≤ 0 then true
    else (env.now : Int) - completedAt ≥ minutes * 60
  | .dailyReset timeM => env.now ≥ nextOccurrenceAfter completedAt timeM
  | .implicitDaily timeM => env.now ≥ nextOccurrenceAfter completedAt timeM
  | .implicitWeekly schedule => env.now ≥ nextWeeklyAfter completedAt schedule
  | .implicitEvent => true

/-! ## The Chore state machine (`chore_core.py`) -/

/-- One entry of `_completion_history`. -/
structure HistRecord where
  completedAt : Nat
  completedBy : String
deriving DecidableEq, Repr

/-- Python `l[-100:]` (and, for `n = 100`, the trim target). -/
def takeLast (n : Nat) (l : List α) : List α := l.drop (l.length - n)

/-- The `Chore` aggregate (labels, icons and the logbook flag carry no
state-machine behavior and are omitted). -/
structure Chore where
  id : String
  name : String
  state : ChoreState
  stateEnteredAt : Nat
  dueSince : Option Nat
  lastCompleted : Option Nat
  forced : Bool
  trigger : Trigger
  completion : Completion
  reset : Reset
  completionHistory : List HistRecord
deriving DecidableEq, Repr

namespace Chore

/-- The `Chore._record_completion`: append a record, trim to the last 100. -/
def record_completion (c : Chore) (forced : Bool) (now : Nat) : Chore :=
  let record : HistRecord :=
    { completedAt := now
      completedBy :=
        if forced then "forced"
        else if c.completion.ctype.value = "manual" then "manual"
        else "sensor" }
  let hist := c.completionHistory ++ [record]
  { c with
      completionHistory := if hist.length > 100 then takeLast 100 hist else hist }

/-- The `Chore._set_state`: returns the old state when it changed, `none`
otherwise. -/
def set_state (c : Chore) (newState : ChoreState) (forced : Bool) (now : Nat) :
    Chore × Option ChoreState :=
  if newState = c.state then (c, none)
  else
    let old := c.state
    let c := { c with state := newState, stateEnteredAt := now, forced := forced }
    let c :=
      if newState = .due then { c with dueSince := some now }
      else if newState = .completed then
        record_completion { c with lastCompleted := some now } forced now
      else if newState = .inactive then { c with dueSince := none }
      else c
    (c, some old)

/-- The `Chore._evaluate_inactive`. -/
def evaluate_inactive (c : Chore) (now : Nat) : Chore × Option ChoreState :=
  if c.trigger.state = .done then
    set_state { c with completion := c.completion.enable } .due false now
  else if c.trigger.state = .active then set_state c .pending false now
  else (c, none)

/-- The `Chore._evaluate_pending`. -/
def evaluate_pending (c : Chore) (now : Nat) : Chore × Option ChoreState :=
  if c.trigger.state = .done then
    set_state { c with completion := c.completion.enable } .due false now
  else if c.trigger.state = .idle then set_state c .inactive false now
  else (c, none)

/-- The `Chore._evaluate_due`. -/
def evaluate_due (c : Chore) (now : Nat) : Chore × Option ChoreState :=
  if c.completion.state = .done then set_state c .completed false now
  else if c.completion.state = .active then set_state c .started false now
  else (c, none)

/-- The `Chore._evaluate_started`. -/
def evaluate_started (c : Chore) (now : Nat) : Chore × Option ChoreState :=
  if c.completion.state = .done then set_state c .completed false now
  else (c, none)

/-- The `Chore._evaluate_completed`. -/
def evaluate_completed (c : Chore) (env : Env) : Chore × Option ChoreState :=
  if c.reset.should_reset c.stateEnteredAt env then
    let c := { c with trigger := c.trigger.reset env.now }
    let c := { c with completion := c.completion.reset env.now }
    set_state c .inactive false env.now
  else (c, none)

/-- The `Chore.evaluate`: run the trigger's time-based checks, then dispatch
on the current state (which the trigger evaluation does not touch). -/
def evaluate (c : Chore) (env : Env) : Chore × Option ChoreState :=
  let c2 := { c with trigger := c.trigger.evaluate env }
  match c.state with
  | .inactive => evaluate_inactive c2 env.now
  | .pending => evaluate_pending c2 env.now
  | .due => evaluate_due c2 env.now
  | .started => evaluate_started c2 env.now
  | .completed => evaluate_completed c2 env

/-- The `Chore.force_due`. -/
def force_due (c : Chore) (now : Nat) : Chore × Option ChoreState :=
  let c := { c with trigger := c.trigger.set_state .done now }
  let c := { c with completion := (c.completion.reset now).enable }
  set_state c .due true now

/-- The `Chore.force_inactive`. -/
def force_inactive (c : Chore) (now : Nat) : Chore × Option ChoreState :=
  let c := { c with trigger := c.trigger.reset now }
  let c := { c with completion := c.completion.reset now }
  set_state c .inactive true now

/-- The `Chore.force_complete`. -/
def force_complete (c : Chore) (now : Nat) : Chore × Option ChoreState :=
  let c := { c with completion := ((c.completion.set_state .done now).1).disable }
  set_state c .completed true now

/-- The persisted dict of `Chore.snapshot_state`. -/
structure Snap where
  choreState : ChoreState
  stateEnteredAt : Nat
  dueSince : Option Nat
  lastCompleted : Option Nat
  forced : Bool
  trigger : Trigger.Snap
  completion : Completion.Snap
  completionHistory : List HistRecord
deriving DecidableEq, Repr

/-- The `Chore.snapshot_state`. -/
def snapshot_state (c : Chore) : Snap :=
  { choreState := c.state
    stateEnteredAt := c.stateEnteredAt
    dueSince := c.dueSince
    lastCompleted := c.lastCompleted
    forced := c.forced
    trigger := c.trigger.snapshot_state
    completion := c.completion.snapshot_state
    completionHistory := takeLast 100 c.completionHistory }

/-- The `Chore.restore_state` applied to a snapshot produced by
`snapshot_state`: the always-present keys are taken from the data, while
`due_since` / `last_completed` are only overwritten when truthy (a
serialised timestamp), mirroring `if data.get(...)`. -/
def restore_state (c : Chore) (data : Snap) : Chore :=
  let c := { c with state := data.choreState, stateEnteredAt := data.stateEnteredAt }
  let c :=
    match data.dueSince with
    | some t => { c with dueSince := some t }
    | none => c
  let c :=
    match data.lastCompleted with
    | some t => { c with lastCompleted := some t }
    | none => c
  { c with
      forced := data.forced
      trigger := c.trigger.restore_state data.trigger
      completion := c.completion.restore_state data.completion
      completionHistory := data.completionHistory }

end Chore

/-! ## Factories (`create_trigger`, `create_completion`, `create_reset`,
`Chore.__init__`)

Configuration dicts are flattened into records carrying the union of the
type-specific keys, each with the `.get(...)` default of the source;
`HH:MM` strings are represented as minutes of the day, weekly schedule
entries as `(weekday, minutes)` pairs. -/

/-- A trigger configuration dict. -/
structure TriggerConfig where
  type : String
  powerSensor : Option String := none
  currentSensor : Option String := none
  powerThreshold : Rat := 10
  currentThreshold : Rat := 1 / 25
  cooldownMinutes : Nat := 5
  entityId : String := ""
  fromState : String := ""
  toState : String := ""
  timeM : Nat := 0
  schedule : List (Nat × Nat) := []
  gate : Option (String × String) := none
  targetState : String := "on"
  durationHours : Rat := 0
deriving Repr

/-- The `create_trigger`: dispatch on the `type` string over
`TRIGGER_FACTORY`; an unknown type raises `ValueError`. -/
def create_trigger (cfg : TriggerConfig) (now : Nat) : Except String Trigger :=
  let base : TrigBase := { state := .idle, stateEnteredAt := now }
  if cfg.type = "power_cycle" then
    .ok { base
          data := .powerCycle
            { powerSensor := cfg.powerSensor
              currentSensor := cfg.currentSensor
              powerThreshold := cfg.powerThreshold
              currentThreshold := cfg.currentThreshold
              cooldownMinutes := cfg.cooldownMinutes
              powerDroppedAt := none
              machineRunning := false } }
  else if cfg.type = "state_change" then
    .ok { base
          data := .stateChange
            { entityId := cfg.entityId
              fromState := cfg.fromState
              toState := cfg.toState } }
  else if cfg.type = "daily" then
    .ok { base
          data := .daily { timeM := cfg.timeM, gate := cfg.gate, timeFiredToday := false } }
  else if cfg.type = "weekly" then
    .ok { base
          data := .weekly
            { schedule := cfg.schedule, gate := cfg.gate, timeFiredToday := false } }
  else if cfg.type = "duration" then
    .ok { base
          data := .duration
            { entityId := cfg.entityId
              targetState := cfg.targetState
              durationHours := cfg.durationHours
              gate := cfg.gate
              stateSince := none
              durationElapsed := false } }
  else .error ("Unknown trigger type: " ++ cfg.type)

/-- A completion configuration dict (`type` defaults to `manual` via
`config.get("type", "manual")`). -/
structure CompletionConfig where
  type : String := "manual"
deriving Repr

/-- The `create_completion`: dispatch over `COMPLETION_FACTORY`; an unknown
type raises `ValueError`. -/
def create_completion (cfg : CompletionConfig) (now : Nat) : Except String Completion :=
  let mk (ct : CompletionType) : Completion :=
    { ctype := ct, state := .idle, stateEnteredAt := now, stepsDone := 0, enabled := false }
  if cfg.type = "manual" then .ok (mk .manual)
  else if cfg.type = "sensor_state" then .ok (mk .sensorState)
  else if cfg.type = "contact" then .ok (mk .contact)
  else if cfg.type = "contact_cycle" then .ok (mk .contactCycle)
  else if cfg.type = "presence_cycle" then .ok (mk .presenceCycle)
  else .error ("Unknown completion type: " ++ cfg.type)

/-- A reset configuration dict with the `.get` defaults of
`create_reset`. -/
structure ResetConfig where
  type : String := "delay"
  minutes : Int := 0
  timeM : Nat := 0
deriving Repr

/-- The trigger-type defaults at the bottom of `create_reset`. -/
def defaultReset (triggerType : String) (triggerConfig : TriggerConfig) : Reset :=
  if triggerType = "daily" then .implicitDaily triggerConfig.timeM
  else if triggerType = "weekly" then .implicitWeekly triggerConfig.schedule
  else .implicitEvent

/-- The `create_reset`: with a config, `delay` and `daily_reset` are
handled; any other type string falls through to the trigger-type
defaults (the source has no unknown-type branch). -/
def create_reset (config : Option ResetConfig) (triggerType : String)
    (triggerConfig : TriggerConfig) : Reset :=
  match config with
  | some cfg =>
    if cfg.type = "delay" then .delay cfg.minutes
    else if cfg.type = "daily_reset" then .dailyReset cfg.timeM
    else defaultReset triggerType triggerConfig
  | none => defaultReset triggerType triggerConfig

/-- A chore configuration dict. -/
structure ChoreConfig where
  id : String
  name : String
  trigger : TriggerConfig
  completion : Option CompletionConfig := none
  reset : Option ResetConfig := none
deriving Repr

/-- The `Chore.__init__`: build the trigger, completion and reset from
configuration, then the initial state. -/
def Chore.create (cfg : ChoreConfig) (now : Nat) : Except String Chore := do
  let trigger ← create_trigger cfg.trigger now
  let completion ← create_completion (cfg.completion.getD {}) now
  let reset := create_reset cfg.reset cfg.trigger.type cfg.trigger
  .ok
    { id := cfg.id
      name := cfg.name
      state := .inactive
      stateEnteredAt := now
      dueSince := none
      lastCompleted := none
      forced := false
      trigger := trigger
      completion := completion
      reset := reset
      completionHistory := [] }

/-! ## Coordinator event firing (`coordinator.py`) -/

/-- The `STATE_EVENT_MAP.get`: the event name for the state entered. -/
def stateEventMap : ChoreState → Option String
  | .pending => some "chores.chore_pending"
  | .due => some "chores.chore_due"
  | .started => some "chores.chore_started"
  | .completed => some "chores.chore_completed"
  | .inactive => some "chores.chore_reset"

/-- A fired Home Assistant event: name and data dict. -/
structure FiredEvent where
  eventName : String
  payload : List (String × String)
deriving DecidableEq, Repr

/-- The `ChoresCoordinator._fire_event`: one event per reported transition,
skipped only when `STATE_EVENT_MAP` has no entry for the new state. -/
def fireEvent (c : Chore) (oldState newState : ChoreState) : Option FiredEvent :=
  match stateEventMap newState with
  | none => none
  | some eventName =>
    some
      { eventName := eventName
        payload :=
          [("chore_id", c.id), ("chore_name", c.name),
           ("previous_state", oldState.value), ("new_state", newState.value)] }

/-! ## Basic lemmas about `Chore._set_state` -/

namespace Chore

theorem set_state_fst_state (c : Chore) (s : ChoreState) (f : Bool) (now : Nat) :
    (c.set_state s f now).1.state = s := by
  unfold set_state record_completion
  split_ifs with h <;> simp [h]

theorem set_state_snd (c : Chore) (s : ChoreState) (f : Bool) (now : Nat) :
    (c.set_state s f now).2 = if s = c.state then none else some c.state := by
  unfold set_state record_completion
  split_ifs with h <;> simp [h]

theorem set_state_self (c : Chore) (s : ChoreState) (f : Bool) (now : Nat)
    (h : s = c.state) : c.set_state s f now = (c, none) := by
  unfold set_state
  simp [h]

end Chore

/-! ## Sample inputs used by concrete witnesses and counterexamples -/

/-- An environment with no readable entities. -/
def emptyEnv : Env :=
  { states := fun _ => none, parseFloat := fun _ => none, now := 1000 }

/-- A `state_change` trigger (its `evaluate` is the inherited no-op). -/
def sampleTrigger (s : SubState) : Trigger :=
  { base := { state := s, stateEnteredAt := 0 }
    data := .stateChange { entityId := "sensor.door", fromState := "off", toState := "on" } }

/-- A contact-cycle completion in a given sub-state. -/
def sampleCompletion (s : SubState) (steps : Nat) (en : Bool) : Completion :=
  { ctype := .contactCycle, state := s, stateEnteredAt := 0, stepsDone := steps
    enabled := en }

/-- A sample chore; state, sub-states and reset are parameters so each
witness can pick the situation it needs. -/
def sampleChore (cs : ChoreState) (trig comp : SubState) (r : Reset) : Chore :=
  { id := "laundry"
    name := "Laundry"
    state := cs
    stateEnteredAt := 0
    dueSince := if cs = .due ∨ cs = .started then some 5 else none
    lastCompleted := none
    forced := false
    trigger := sampleTrigger trig
    completion := sampleCompletion comp (if comp = .idle then 0 else 1) (cs = .due ∨ cs = .started)
    reset := r
    completionHistory := [] }

/-! ## C3 — `enable()` in the wired `completions.py`

The claim (and the repository's own tests, which expect
`SensorThresholdCompletion` with an enable-time immediate check) say
`enable()` resets the detector to idle, clears the step count and
re-checks the current value. The wired `BaseCompletion.enable` only
sets the flag. -/

/-- A completion mid-cycle: one step done, sub-state `active`. -/
def c3Completion : Completion :=
  { ctype := .contactCycle, state := .active, stateEnteredAt := 0, stepsDone := 1
    enabled := false }

/-- C3: `BaseCompletion.enable` only sets `enabled`; the mid-cycle
sub-state `active` and step count 1 survive, and no immediate re-check
of the external value exists in the wired module — contradicting the
claim (and `tests/test_completions.py`, which additionally imports a
`SensorThresholdCompletion` that the wired module does not define). -/
theorem choresC3_enable_only_sets_flag :
    Completion.enable c3Completion =
      { ctype := .contactCycle, state := .active, stateEnteredAt := 0, stepsDone := 1
        enabled := true } := by
  rfl

/-! ## C9 — event payload on state transitions -/

/-- C9 counterexample: the fired event's data dict has no `forced` key
(the claim says every transition event carries the forced flag). -/
theorem choresC9_counterexample :
    ∃ ev : FiredEvent,
      fireEvent (sampleChore .inactive .done .idle .implicitEvent) .inactive .due = some ev ∧
        ev.payload.lookup "forced" = none := by
  refine ⟨_, rfl, ?_⟩
  decide

/-- C9 (amended): for every chore and every transition, exactly one
event is produced (the state-to-event map is total on the five states),
named for the state entered, and its payload carries the chore id, chore
name, previous state and new state — but no forced flag. -/
theorem choresC9_event_payload (c : Chore) (oldState newState : ChoreState) :
    ∃ ev : FiredEvent,
      fireEvent c oldState newState = some ev ∧
        stateEventMap newState = some ev.eventName ∧
        ev.payload.lookup "chore_id" = some c.id ∧
        ev.payload.lookup "chore_name" = some c.name ∧
        ev.payload.lookup "previous_state" = some oldState.value ∧
        ev.payload.lookup "new_state" = some newState.value := by
  cases newState <;>
    exact ⟨_, rfl, rfl, by simp [List.lookup], by simp [List.lookup],
      by simp [List.lookup], by simp [List.lookup]⟩

/-! ## C8 — unknown type strings at construction -/

/-- A chore configuration whose reset carries an unknown type string. -/
def c8Config : ChoreConfig :=
  { id := "dishwasher"
    name := "Dishwasher"
    trigger := { type := "power_cycle", powerSensor := some "sensor.plug_power" }
    completion := some { type := "contact" }
    reset := some { type := "bogus" } }

/-- C8 counterexample: constructing a chore whose reset type is the
unknown string `bogus` succeeds — `create_reset` silently falls through
to the trigger-type default (`ImplicitEventReset` for `power_cycle`) —
contradicting the claim that any unknown type string fails
construction. -/
theorem choresC8_counterexample :
    (Chore.create c8Config 0).toOption.map Chore.reset = some .implicitEvent := by
  decide

/-- C8 (amended): an unknown trigger or completion type string fails
chore construction with a `ValueError` (no chore is created), while an
unknown reset type string does not fail: `create_reset` returns the
default reset for the trigger type. -/
theorem choresC8_unknown_type_behavior (cfg : ChoreConfig) (rc : ResetConfig)
    (now : Nat) :
    (cfg.trigger.type ∉
        ["power_cycle", "state_change", "daily", "weekly", "duration"] →
      ∃ msg, Chore.create cfg now = .error msg) ∧
    (∀ cc, cfg.completion = some cc →
      cc.type ∉
          ["manual", "sensor_state", "contact", "contact_cycle", "presence_cycle"] →
      ∃ msg, Chore.create cfg now = .error msg) ∧
    (rc.type ≠ "delay" → rc.type ≠ "daily_reset" →
      create_reset (some rc) cfg.trigger.type cfg.trigger =
        defaultReset cfg.trigger.type cfg.trigger) := by
  refine ⟨?_, ?_, ?_⟩
  · intro h
    simp only [List.mem_cons, List.mem_singleton, not_or] at h
    obtain ⟨h1, h2, h3, h4, h5, -⟩ := h
    refine ⟨"Unknown trigger type: " ++ cfg.trigger.type, ?_⟩
    simp [Chore.create, create_trigger, h1, h2, h3, h4, h5, Bind.bind, Except.bind]
  · intro cc hcc h
    simp only [List.mem_cons, List.mem_singleton, not_or] at h
    obtain ⟨h1, h2, h3, h4, h5, -⟩ := h
    unfold Chore.create
    cases htr : create_trigger cfg.trigger now with
    | error msg => exact ⟨msg, by simp [htr, Bind.bind, Except.bind]⟩
    | ok t =>
      refine ⟨"Unknown completion type: " ++ cc.type, ?_⟩
      simp [htr, hcc, create_completion, h1, h2, h3, h4, h5, Bind.bind, Except.bind]
  · intro h1 h2
    simp [create_reset, h1, h2]

/-- Witness for C8: a concrete unknown trigger type and unknown
completion type fail construction, and the concrete unknown reset type
falls back to the default. -/
theorem choresC8_witness :
    (∃ msg,
      Chore.create { c8Config with trigger := { type := "nonexistent" } } 0 = .error msg) ∧
    (∃ msg,
      Chore.create { c8Config with completion := some { type := "daily" } } 0 =
        .error msg) ∧
    create_reset (some { type := "bogus" }) "power_cycle" c8Config.trigger =
      defaultReset "power_cycle" c8Config.trigger := by
  refine ⟨?_, ?_, ?_⟩
  · exact (choresC8_unknown_type_behavior
      { c8Config with trigger := { type := "nonexistent" } } { type := "bogus" } 0).1
      (by decide)
  · exact (choresC8_unknown_type_behavior
      { c8Config with completion := some { type := "daily" } } { type := "bogus" } 0).2.1
      { type := "daily" } rfl (by decide)
  · exact (choresC8_unknown_type_behavior c8Config { type := "bogus" } 0).2.2
      (by decide) (by decide)

/-! ## C7 — power-cycle behaviour on unreadable sensor values -/

theorem TrigBase.set_state_base_state (b : TrigBase) (s : SubState) (now : Nat) :
    (b.set_state s now).1.state = s := by
  unfold TrigBase.set_state
  split_ifs with h <;> simp [h]

/-- Every configured power-cycle sensor currently reads as missing or
`unknown`/`unavailable`. -/
def allConfiguredUnreadable (d : PowerCycleData) (env : Env) : Prop :=
  (∀ e, d.powerSensor = some e → env.unreadable e) ∧
    (∀ e, d.currentSensor = some e → env.unreadable e)

theorem readAbove_unreadable (env : Env) (e : Option String) (th : Rat)
    (h : ∀ x, e = some x → env.unreadable x) :
    readAbove env e th = (false, false) := by
  cases e with
  | none => rfl
  | some x =>
    have hx := h x rfl
    unfold Env.unreadable at hx
    unfold readAbove
    rcases hx with hx | hx | hx <;> simp [hx]

/-- C7 (amended): while every configured read is missing or
`unknown`/`unavailable`, `_is_above_threshold` returns `None` (never a
confirmed below-threshold reading) and the power handler holds the
trigger exactly: state, `machine_running` and the cooldown timestamp
are all unchanged. (A present but *non-numeric* reading, by contrast,
counts as readable — see the counterexample.) -/
theorem choresC7_unreadable_holds_state (b : TrigBase) (d : PowerCycleData)
    (env : Env) (h : allConfiguredUnreadable d env) :
    isAboveThreshold d env = none ∧ evaluatePower b d env = (b, d) := by
  have hp := readAbove_unreadable env d.powerSensor d.powerThreshold h.1
  have hc := readAbove_unreadable env d.currentSensor d.currentThreshold h.2
  have habove : isAboveThreshold d env = none := by
    unfold isAboveThreshold
    simp [hp, hc]
  refine ⟨habove, ?_⟩
  unfold evaluatePower
  simp [habove]

/-- Witness for C7: a concrete trigger whose only configured sensor is
`unavailable` keeps its running state and timer. -/
theorem choresC7_witness :
    isAboveThreshold
        { powerSensor := some "sensor.plug_power", currentSensor := none
          powerThreshold := 10, currentThreshold := 1 / 25, cooldownMinutes := 5
          powerDroppedAt := none, machineRunning := true }
        { states := fun e => if e = "sensor.plug_power" then some "unavailable" else none
          parseFloat := fun _ => none, now := 50 } = none ∧
      evaluatePower { state := .active, stateEnteredAt := 0 }
        { powerSensor := some "sensor.plug_power", currentSensor := none
          powerThreshold := 10, currentThreshold := 1 / 25, cooldownMinutes := 5
          powerDroppedAt := none, machineRunning := true }
        { states := fun e => if e = "sensor.plug_power" then some "unavailable" else none
          parseFloat := fun _ => none, now := 50 } =
        ({ state := .active, stateEnteredAt := 0 },
          { powerSensor := some "sensor.plug_power", currentSensor := none
            powerThreshold := 10, currentThreshold := 1 / 25, cooldownMinutes := 5
            powerDroppedAt := none, machineRunning := true }) :=
  choresC7_unreadable_holds_state _ _ _
    (by
      constructor
      · intro e he
        simp only [Option.some.injEq] at he
        subst he
        unfold Env.unreadable
        simp
      · intro e he
        simp at he)

/-- A power-cycle trigger whose single configured sensor reads the
present but non-numeric string `abc`, while a wash cycle is running. -/
def c7Data : PowerCycleData :=
  { powerSensor := some "sensor.plug_power", currentSensor := none
    powerThreshold := 10, currentThreshold := 1 / 25, cooldownMinutes := 5
    powerDroppedAt := none, machineRunning := true }

/-- The environment for the C7 counterexample: `float("abc")` raises. -/
def c7Env : Env :=
  { states := fun e => if e = "sensor.plug_power" then some "abc" else none
    parseFloat := fun _ => none
    now := 50 }

/-- C7 counterexample: with every configured read non-numeric (`abc`),
the claim says the trigger holds its state and does not start the
cooldown timer; the code instead marks the read as readable
(`any_readable` is set before `float()` is attempted), returns a
confirmed `False` from `_is_above_threshold`, and starts the cooldown. -/
theorem choresC7_counterexample :
    isAboveThreshold c7Data c7Env = some false ∧
      (evaluatePower { state := .active, stateEnteredAt := 0 } c7Data c7Env).2.powerDroppedAt =
        some 50 := by
  constructor <;> decide

/-! ## C10 — frame effect of `force_due` on an already-due chore -/

/-- C10: `force_due` on a chore already in `due` reports no change and
leaves the chore state `due`, yet resets and re-enables the completion
stage (sub-state `idle`, zero steps, enabled) and sets the trigger to
`done` — discarding any mid-cycle completion progress. -/
theorem choresC10_force_due_on_due_chore (c : Chore) (now : Nat)
    (h : c.state = .due) :
    (c.force_due now).2 = none ∧
    (c.force_due now).1.state = .due ∧
    (c.force_due now).1.completion =
      { ctype := c.completion.ctype, state := .idle, stateEnteredAt := now
        stepsDone := 0, enabled := true } ∧
    (c.force_due now).1.trigger.state = .done := by
  unfold Chore.force_due
  rw [Chore.set_state_self _ _ _ _ (by simp [h])]
  refine ⟨rfl, by simp [h], by simp [Completion.reset, Completion.enable], ?_⟩
  simp [Trigger.set_state, Trigger.state, TrigBase.set_state_base_state]

/-- Witness for C10 on a concrete due chore with a mid-cycle completion
(`active`, one step done). -/
theorem choresC10_witness :
    ((sampleChore .due .done .active .implicitEvent).force_due 7).2 = none ∧
    ((sampleChore .due .done .active .implicitEvent).force_due 7).1.state = .due ∧
    ((sampleChore .due .done .active .implicitEvent).force_due 7).1.completion =
      { ctype := .contactCycle, state := .idle, stateEnteredAt := 7
        stepsDone := 0, enabled := true } ∧
    ((sampleChore .due .done .active .implicitEvent).force_due 7).1.trigger.state = .done :=
  choresC10_force_due_on_due_chore (sampleChore .due .done .active .implicitEvent) 7
    (by decide)

/-! ## C4 — idempotence of the force actions -/

theorem TrigBase.set_state_base_idem (b : TrigBase) (s : SubState) (now : Nat) :
    ((b.set_state s now).1).set_state s now = ((b.set_state s now).1, false) := by
  by_cases h1 : s = b.state <;> simp [TrigBase.set_state, h1]

theorem Trigger.set_state_trig_idem (t : Trigger) (s : SubState) (now : Nat) :
    (t.set_state s now).set_state s now = t.set_state s now := by
  unfold Trigger.set_state
  simp [TrigBase.set_state_base_idem]

theorem Completion.set_state_comp_state (c : Completion) (s : SubState) (now : Nat) :
    (c.set_state s now).1.state = s := by
  unfold Completion.set_state
  split_ifs with h <;> simp [h]

theorem Completion.set_state_done_idem (c : Completion) (now : Nat) :
    (((c.set_state .done now).1.set_state .done now).1) = (c.set_state .done now).1 := by
  by_cases h1 : SubState.done = c.state <;> simp [Completion.set_state, h1]

theorem Completion.reset_enable_idem (c : Completion) (now : Nat) :
    ((((c.reset now).enable).reset now).enable) = (c.reset now).enable := rfl

theorem Completion.reset_idem (c : Completion) (now : Nat) :
    (c.reset now).reset now = c.reset now := rfl

theorem Completion.set_done_disable_idem (c : Completion) (now : Nat) :
    ((((c.set_state .done now).1).disable).set_state .done now).1.disable =
      ((c.set_state .done now).1).disable := by
  by_cases h1 : SubState.done = c.state <;>
    simp [Completion.set_state, Completion.disable, h1]

theorem Trigger.resetInternal_idem (d : TriggerData) :
    Trigger.resetInternal (Trigger.resetInternal d) = Trigger.resetInternal d := by
  cases d <;> rfl

theorem Trigger.reset_trig_idem (t : Trigger) (now : Nat) :
    (t.reset now).reset now = t.reset now := by
  unfold Trigger.reset Trigger.set_state
  simp [TrigBase.set_state_base_idem, Trigger.resetInternal_idem]

theorem Chore.set_state_frame (c : Chore) (s : ChoreState) (f : Bool) (now : Nat) :
    (c.set_state s f now).1.trigger = c.trigger ∧
      (c.set_state s f now).1.completion = c.completion ∧
      (c.set_state s f now).1.id = c.id ∧
      (c.set_state s f now).1.name = c.name ∧
      (c.set_state s f now).1.reset = c.reset := by
  unfold Chore.set_state Chore.record_completion
  split_ifs with h <;> simp

/-- C4: the force actions are idempotent. Each reports "no change"
(returns `None`) exactly when the chore is already in the target state,
and running the same force action twice in a row (at the same instant)
leaves the chore of the first call exactly unchanged, with the second
call reporting no change. -/
theorem choresC4_force_idempotent (c : Chore) (now : Nat) :
    ((c.force_due now).2 = none ↔ c.state = .due) ∧
    ((c.force_inactive now).2 = none ↔ c.state = .inactive) ∧
    ((c.force_complete now).2 = none ↔ c.state = .completed) ∧
    (c.force_due now).1.force_due now = ((c.force_due now).1, none) ∧
    (c.force_inactive now).1.force_inactive now = ((c.force_inactive now).1, none) ∧
    (c.force_complete now).1.force_complete now = ((c.force_complete now).1, none) := by
  refine ⟨?_, ?_, ?_, ?_, ?_, ?_⟩
  · unfold Chore.force_due
    rw [Chore.set_state_snd]
    split_ifs with h <;> simp_all [eq_comm]
  · unfold Chore.force_inactive
    rw [Chore.set_state_snd]
    split_ifs with h <;> simp_all [eq_comm]
  · unfold Chore.force_complete
    rw [Chore.set_state_snd]
    split_ifs with h <;> simp_all [eq_comm]
  · have h1 : (c.force_due now).1.state = .due := by
      unfold Chore.force_due
      exact Chore.set_state_fst_state ..
    have h2 : (c.force_due now).1.trigger = c.trigger.set_state .done now := by
      unfold Chore.force_due
      exact (Chore.set_state_frame ..).1
    have h3 : (c.force_due now).1.completion = (c.completion.reset now).enable := by
      unfold Chore.force_due
      exact (Chore.set_state_frame ..).2.1
    obtain ⟨c1, hc1⟩ : ∃ c1, (c.force_due now).1 = c1 := ⟨_, rfl⟩
    rw [hc1] at h1 h2 h3 ⊢
    show Chore.set_state
        { c1 with
            trigger := c1.trigger.set_state .done now
            completion := (c1.completion.reset now).enable } .due true now = (c1, none)
    rw [h2, Trigger.set_state_trig_idem, ← h2, h3, Completion.reset_enable_idem, ← h3]
    exact Chore.set_state_self _ _ _ _ h1.symm
  · have h1 : (c.force_inactive now).1.state = .inactive := by
      unfold Chore.force_inactive
      exact Chore.set_state_fst_state ..
    have h2 : (c.force_inactive now).1.trigger = c.trigger.reset now := by
      unfold Chore.force_inactive
      exact (Chore.set_state_frame ..).1
    have h3 : (c.force_inactive now).1.completion = c.completion.reset now := by
      unfold Chore.force_inactive
      exact (Chore.set_state_frame ..).2.1
    obtain ⟨c1, hc1⟩ : ∃ c1, (c.force_inactive now).1 = c1 := ⟨_, rfl⟩
    rw [hc1] at h1 h2 h3 ⊢
    show Chore.set_state
        { c1 with
            trigger := c1.trigger.reset now
            completion := c1.completion.reset now } .inactive true now = (c1, none)
    rw [h2, Trigger.reset_trig_idem, ← h2, h3, Completion.reset_idem, ← h3]
    exact Chore.set_state_self _ _ _ _ h1.symm
  · have h1 : (c.force_complete now).1.state = .completed := by
      unfold Chore.force_complete
      exact Chore.set_state_fst_state ..
    have h3 : (c.force_complete now).1.completion =
        ((c.completion.set_state .done now).1).disable := by
      unfold Chore.force_complete
      exact (Chore.set_state_frame ..).2.1
    obtain ⟨c1, hc1⟩ : ∃ c1, (c.force_complete now).1 = c1 := ⟨_, rfl⟩
    rw [hc1] at h1 h3 ⊢
    show Chore.set_state
        { c1 with
            completion := ((c1.completion.set_state .done now).1).disable } .completed
        true now = (c1, none)
    rw [h3, Completion.set_done_disable_idem, ← h3]
    exact Chore.set_state_self _ _ _ _ h1.symm

/-! ## C5 — snapshot/restore round trip -/

/-- C5: restoring a chore's own snapshot into a freshly constructed
chore (whose `due_since` / `last_completed` are still unset, as in
`ChoresCoordinator.register_chore`) reproduces the chore state,
`dueSince`, `lastCompleted`, the forced flag and the completion-history
length exactly, for any chore whose in-memory history respects the
100-entry bound. -/
theorem choresC5_snapshot_roundtrip (c d : Chore)
    (hds : d.dueSince = none) (hlc : d.lastCompleted = none)
    (hlen : c.completionHistory.length ≤ 100) :
    (d.restore_state c.snapshot_state).state = c.state ∧
    (d.restore_state c.snapshot_state).dueSince = c.dueSince ∧
    (d.restore_state c.snapshot_state).lastCompleted = c.lastCompleted ∧
    (d.restore_state c.snapshot_state).forced = c.forced ∧
    (d.restore_state c.snapshot_state).completionHistory.length =
      c.completionHistory.length := by
  have hhist : (takeLast 100 c.completionHistory).length =
      c.completionHistory.length := by
    unfold takeLast
    rw [List.length_drop]
    omega
  unfold Chore.restore_state Chore.snapshot_state
  cases hcd : c.dueSince <;> cases hcl : c.lastCompleted <;>
    simp_all

/-- The source chore of the C5 witness: a due chore with one completed
record and set timestamps. -/
def c5Source : Chore :=
  { sampleChore .due .done .idle .implicitEvent with
      lastCompleted := some 3
      forced := true
      completionHistory := [{ completedAt := 3, completedBy := "sensor" }] }

/-- The restore target of the C5 witness: a freshly built chore. -/
def c5Target : Chore := sampleChore .inactive .idle .idle .implicitEvent

/-- Witness for C5 at the concrete source/target pair. -/
theorem choresC5_witness :
    (c5Target.restore_state c5Source.snapshot_state).state = c5Source.state ∧
    (c5Target.restore_state c5Source.snapshot_state).dueSince = c5Source.dueSince ∧
    (c5Target.restore_state c5Source.snapshot_state).lastCompleted =
      c5Source.lastCompleted ∧
    (c5Target.restore_state c5Source.snapshot_state).forced = c5Source.forced ∧
    (c5Target.restore_state c5Source.snapshot_state).completionHistory.length =
      c5Source.completionHistory.length :=
  choresC5_snapshot_roundtrip c5Source c5Target (by decide) (by decide) (by decide)

/-! ## C6 — completion history: bound, trimming, record contents -/

/-- The history-trim step of `_record_completion`, as a drop from the
front. -/
theorem trimHist_eq_drop (l : List HistRecord) (r : HistRecord) :
    (if (l ++ [r]).length > 100 then takeLast 100 (l ++ [r]) else l ++ [r]) =
      (l ++ [r]).drop (l.length + 1 - 100) := by
  unfold takeLast
  split_ifs with h
  · simp only [List.length_append, List.length_singleton]
  · have h0 : l.length + 1 - 100 = 0 := by
      simp only [List.length_append, List.length_singleton, not_lt] at h
      omega
    rw [h0, List.drop_zero]

theorem Chore.record_completion_hist (c : Chore) (f : Bool) (now : Nat) :
    (c.record_completion f now).completionHistory =
      (c.completionHistory ++
          [({ completedAt := now
              completedBy :=
                if f then "forced"
                else if c.completion.ctype.value = "manual" then "manual"
                else "sensor" } : HistRecord)]).drop
        (c.completionHistory.length + 1 - 100) :=
  trimHist_eq_drop c.completionHistory _

theorem trimHist_len (l : List HistRecord) (r : HistRecord) :
    ((l ++ [r]).drop (l.length + 1 - 100)).length ≤ 100 := by
  have hlen : (l ++ [r]).length = l.length + 1 := by
    simp
  rw [List.length_drop, hlen]
  omega

theorem trimHist_len_eq (l : List HistRecord) (r : HistRecord)
    (h : l.length ≤ 100) :
    ((l ++ [r]).drop (l.length + 1 - 100)).length = min (l.length + 1) 100 := by
  have hlen : (l ++ [r]).length = l.length + 1 := by
    simp
  rw [List.length_drop, hlen]
  omega

theorem Chore.record_completion_len (c : Chore) (f : Bool) (now : Nat) :
    (c.record_completion f now).completionHistory.length ≤ 100 := by
  rw [Chore.record_completion_hist]
  exact trimHist_len _ _

theorem Chore.set_state_hist_ne (c : Chore) (s : ChoreState) (f : Bool) (now : Nat)
    (h : s ≠ .completed) :
    (c.set_state s f now).1.completionHistory = c.completionHistory := by
  by_cases h1 : s = c.state
  · rw [Chore.set_state_self _ _ _ _ h1]
  · unfold Chore.set_state
    rw [if_neg h1]
    cases s <;> simp_all

theorem Chore.set_state_hist_completed (c : Chore) (f : Bool) (now : Nat)
    (h : c.state ≠ .completed) :
    (c.set_state .completed f now).1.completionHistory =
      (c.completionHistory ++
          [({ completedAt := now
              completedBy :=
                if f then "forced"
                else if c.completion.ctype.value = "manual" then "manual"
                else "sensor" } : HistRecord)]).drop
        (c.completionHistory.length + 1 - 100) := by
  have hne : ¬(ChoreState.completed = c.state) := fun hh => h hh.symm
  unfold Chore.set_state
  rw [if_neg hne]
  show (Chore.record_completion
      { c with
          state := .completed, stateEnteredAt := now, forced := f
          lastCompleted := some now } f now).completionHistory = _
  rw [Chore.record_completion_hist]

theorem Chore.set_state_len (c : Chore) (s : ChoreState) (f : Bool) (now : Nat)
    (h : c.completionHistory.length ≤ 100) :
    (c.set_state s f now).1.completionHistory.length ≤ 100 := by
  by_cases hs : s = .completed
  · subst hs
    by_cases hc : ChoreState.completed = c.state
    · rw [Chore.set_state_self _ _ _ _ hc]
      exact h
    · rw [Chore.set_state_hist_completed c f now (fun hh => hc hh.symm)]
      exact trimHist_len _ _
  · rw [Chore.set_state_hist_ne c s f now hs]
    exact h

/-- Reduction of `evaluate` per observed chore state. -/
theorem Chore.evaluate_of_inactive (c : Chore) (env : Env) (hs : c.state = .inactive) :
    c.evaluate env =
      Chore.evaluate_inactive { c with trigger := c.trigger.evaluate env } env.now := by
  unfold Chore.evaluate
  rw [hs]

theorem Chore.evaluate_of_pending (c : Chore) (env : Env) (hs : c.state = .pending) :
    c.evaluate env =
      Chore.evaluate_pending { c with trigger := c.trigger.evaluate env } env.now := by
  unfold Chore.evaluate
  rw [hs]

theorem Chore.evaluate_of_due (c : Chore) (env : Env) (hs : c.state = .due) :
    c.evaluate env =
      Chore.evaluate_due { c with trigger := c.trigger.evaluate env } env.now := by
  unfold Chore.evaluate
  rw [hs]

theorem Chore.evaluate_of_started (c : Chore) (env : Env) (hs : c.state = .started) :
    c.evaluate env =
      Chore.evaluate_started { c with trigger := c.trigger.evaluate env } env.now := by
  unfold Chore.evaluate
  rw [hs]

theorem Chore.evaluate_of_completed (c : Chore) (env : Env) (hs : c.state = .completed) :
    c.evaluate env =
      Chore.evaluate_completed { c with trigger := c.trigger.evaluate env } env := by
  unfold Chore.evaluate
  rw [hs]

/-- The `completed_by` is `manual` exactly for the manual completion type. -/
theorem ctype_manual_ite (t : CompletionType) (a b : String) :
    (if t.value = "manual" then a else b) = (if t = .manual then a else b) := by
  cases t <;> rfl

/-- C6: the completion history of a chore (evolved by `evaluate` and the
force actions) always has at most 100 entries with the oldest dropped
first, and exactly the transitions into `completed` append one record:
`forced` for a forced completion, `manual` for a manual completion type,
`sensor` otherwise; no other operation touches the history. -/
theorem choresC6_history (c : Chore) (env : Env) (now : Nat)
    (hlen : c.completionHistory.length ≤ 100) :
    ((c.evaluate env).1.completionHistory.length ≤ 100 ∧
     (c.force_due now).1.completionHistory.length ≤ 100 ∧
     (c.force_inactive now).1.completionHistory.length ≤ 100 ∧
     (c.force_complete now).1.completionHistory.length ≤ 100) ∧
    ((c.evaluate env).2 ≠ none → (c.evaluate env).1.state = .completed →
      (c.evaluate env).1.completionHistory =
        (c.completionHistory ++
            [({ completedAt := env.now
                completedBy :=
                  if c.completion.ctype = .manual then "manual" else "sensor" } :
              HistRecord)]).drop (c.completionHistory.length + 1 - 100)) ∧
    (c.state ≠ .completed →
      (c.force_complete now).1.completionHistory =
        (c.completionHistory ++
            [({ completedAt := now, completedBy := "forced" } : HistRecord)]).drop
          (c.completionHistory.length + 1 - 100)) ∧
    ((c.evaluate env).1.state ≠ .completed ∨ (c.evaluate env).2 = none →
      (c.evaluate env).1.completionHistory = c.completionHistory) ∧
    (c.force_due now).1.completionHistory = c.completionHistory ∧
    (c.force_inactive now).1.completionHistory = c.completionHistory := by
  have hfd : (c.force_due now).1.completionHistory = c.completionHistory := by
    unfold Chore.force_due
    exact Chore.set_state_hist_ne _ _ _ _ (by decide)
  have hfi : (c.force_inactive now).1.completionHistory = c.completionHistory := by
    unfold Chore.force_inactive
    exact Chore.set_state_hist_ne _ _ _ _ (by decide)
  have hfc : (c.state = .completed ∧
        (c.force_complete now).1.completionHistory = c.completionHistory) ∨
      (c.state ≠ .completed ∧
        (c.force_complete now).1.completionHistory =
          (c.completionHistory ++
              [({ completedAt := now, completedBy := "forced" } : HistRecord)]).drop
            (c.completionHistory.length + 1 - 100)) := by
    by_cases hc : ChoreState.completed = c.state
    · left
      refine ⟨hc.symm, ?_⟩
      unfold Chore.force_complete
      show (Chore.set_state
          { c with completion := ((c.completion.set_state .done now).1).disable }
          .completed true now).1.completionHistory = _
      rw [Chore.set_state_self
        { c with completion := ((c.completion.set_state .done now).1).disable }
        .completed true now (show ChoreState.completed = _ from hc)]
    · right
      refine ⟨fun hh => hc hh.symm, ?_⟩
      unfold Chore.force_complete
      show (Chore.set_state
          { c with completion := ((c.completion.set_state .done now).1).disable }
          .completed true now).1.completionHistory = _
      rw [Chore.set_state_hist_completed
        { c with completion := ((c.completion.set_state .done now).1).disable }
        true now (fun hh => hc hh.symm)]
      simp
  have hev : (((c.evaluate env).2 = none ∨ (c.evaluate env).1.state ≠ .completed) ∧
        (c.evaluate env).1.completionHistory = c.completionHistory) ∨
      ((c.evaluate env).2 ≠ none ∧ (c.evaluate env).1.state = .completed ∧
        (c.evaluate env).1.completionHistory =
          (c.completionHistory ++
              [({ completedAt := env.now
                  completedBy :=
                    if c.completion.ctype = .manual then "manual" else "sensor" } :
                HistRecord)]).drop (c.completionHistory.length + 1 - 100)) := by
    set c2 := { c with trigger := c.trigger.evaluate env } with hc2
    have hc2s : c2.state = c.state := by rw [hc2]
    have hc2c : c2.completion = c.completion := by rw [hc2]
    have hc2h : c2.completionHistory = c.completionHistory := by rw [hc2]
    cases hs : c.state
    case inactive =>
      rw [Chore.evaluate_of_inactive c env hs, ← hc2]
      unfold Chore.evaluate_inactive
      by_cases h1 : c2.trigger.state = .done
      · rw [if_pos h1]
        refine Or.inl ⟨Or.inr ?_, ?_⟩
        · rw [Chore.set_state_fst_state]
          decide
        · rw [Chore.set_state_hist_ne _ _ _ _ (by decide)]
      · rw [if_neg h1]
        by_cases h2 : c2.trigger.state = .active
        · rw [if_pos h2]
          refine Or.inl ⟨Or.inr ?_, ?_⟩
          · rw [Chore.set_state_fst_state]
            decide
          · rw [Chore.set_state_hist_ne _ _ _ _ (by decide)]
        · rw [if_neg h2]
          exact Or.inl ⟨Or.inl rfl, hc2h⟩
    case pending =>
      rw [Chore.evaluate_of_pending c env hs, ← hc2]
      unfold Chore.evaluate_pending
      by_cases h1 : c2.trigger.state = .done
      · rw [if_pos h1]
        refine Or.inl ⟨Or.inr ?_, ?_⟩
        · rw [Chore.set_state_fst_state]
          decide
        · rw [Chore.set_state_hist_ne _ _ _ _ (by decide)]
      · rw [if_neg h1]
        by_cases h2 : c2.trigger.state = .idle
        · rw [if_pos h2]
          refine Or.inl ⟨Or.inr ?_, ?_⟩
          · rw [Chore.set_state_fst_state]
            decide
          · rw [Chore.set_state_hist_ne _ _ _ _ (by decide)]
        · rw [if_neg h2]
          exact Or.inl ⟨Or.inl rfl, hc2h⟩
    case due =>
      rw [Chore.evaluate_of_due c env hs, ← hc2]
      unfold Chore.evaluate_due
      have hc2ne : c2.state ≠ .completed := by
        rw [hc2s, hs]
        decide
      by_cases h1 : c2.completion.state = .done
      · rw [if_pos h1]
        refine Or.inr ⟨?_, Chore.set_state_fst_state .., ?_⟩
        · rw [Chore.set_state_snd, if_neg (fun hh => hc2ne hh.symm)]
          simp
        · rw [Chore.set_state_hist_completed _ false env.now hc2ne]
          rw [show (if (false : Bool) then "forced"
              else if c2.completion.ctype.value = "manual" then "manual"
              else "sensor") =
              (if c2.completion.ctype.value = "manual" then "manual" else "sensor") from
            rfl]
          rw [ctype_manual_ite, hc2c, hc2h]
      · rw [if_neg h1]
        by_cases h2 : c2.completion.state = .active
        · rw [if_pos h2]
          refine Or.inl ⟨Or.inr ?_, ?_⟩
          · rw [Chore.set_state_fst_state]
            decide
          · rw [Chore.set_state_hist_ne _ _ _ _ (by decide)]
        · rw [if_neg h2]
          exact Or.inl ⟨Or.inl rfl, hc2h⟩
    case started =>
      rw [Chore.evaluate_of_started c env hs, ← hc2]
      unfold Chore.evaluate_started
      have hc2ne : c2.state ≠ .completed := by
        rw [hc2s, hs]
        decide
      by_cases h1 : c2.completion.state = .done
      · rw [if_pos h1]
        refine Or.inr ⟨?_, Chore.set_state_fst_state .., ?_⟩
        · rw [Chore.set_state_snd, if_neg (fun hh => hc2ne hh.symm)]
          simp
        · rw [Chore.set_state_hist_completed _ false env.now hc2ne]
          rw [show (if (false : Bool) then "forced"
              else if c2.completion.ctype.value = "manual" then "manual"
              else "sensor") =
              (if c2.completion.ctype.value = "manual" then "manual" else "sensor") from
            rfl]
          rw [ctype_manual_ite, hc2c, hc2h]
      · rw [if_neg h1]
        exact Or.inl ⟨Or.inl rfl, hc2h⟩
    case completed =>
      rw [Chore.evaluate_of_completed c env hs, ← hc2]
      unfold Chore.evaluate_completed
      by_cases h1 : c2.reset.should_reset c2.stateEnteredAt env = true
      · rw [if_pos h1]
        refine Or.inl ⟨Or.inr ?_, ?_⟩
        · rw [Chore.set_state_fst_state]
          decide
        · rw [Chore.set_state_hist_ne _ _ _ _ (by decide)]
      · rw [if_neg h1]
        exact Or.inl ⟨Or.inl rfl, hc2h⟩
  refine ⟨⟨?_, ?_, ?_, ?_⟩, ?_, ?_, ?_, hfd, hfi⟩
  · rcases hev with ⟨-, hu⟩ | ⟨-, -, hd⟩
    · rw [hu]; exact hlen
    · rw [hd]; exact trimHist_len _ _
  · rw [hfd]; exact hlen
  · rw [hfi]; exact hlen
  · rcases hfc with ⟨-, hu⟩ | ⟨-, hd⟩
    · rw [hu]; exact hlen
    · rw [hd]; exact trimHist_len _ _
  · intro h2 h1
    rcases hev with ⟨hno, -⟩ | ⟨-, -, hd⟩
    · rcases hno with hno | hno
      · exact absurd hno h2
      · exact absurd h1 hno
    · exact hd
  · intro hne
    rcases hfc with ⟨hceq, -⟩ | ⟨-, hd⟩
    · exact absurd hceq hne
    · exact hd
  · intro hd
    rcases hev with ⟨-, hu⟩ | ⟨h2, h1, -⟩
    · exact hu
    · rcases hd with hd | hd
      · exact absurd h1 hd
      · exact absurd hd h2

/-- Witness for C6 on a concrete due chore with a full (100-entry)
history and a done sensor completion. -/
theorem choresC6_witness :
    (((sampleChore .due .done .done .implicitEvent).evaluate emptyEnv).2 ≠ none →
      ((sampleChore .due .done .done .implicitEvent).evaluate emptyEnv).1.state =
        .completed →
      ((sampleChore .due .done .done .implicitEvent).evaluate
            emptyEnv).1.completionHistory =
        ((sampleChore .due .done .done .implicitEvent).completionHistory ++
            [({ completedAt := 1000
                completedBy :=
                  if (sampleChore .due .done .done .implicitEvent).completion.ctype =
                      .manual then
                    "manual"
                  else "sensor" } : HistRecord)]).drop
          ((sampleChore .due .done .done
                .implicitEvent).completionHistory.length + 1 - 100)) ∧
    ((sampleChore .due .done .done
          .implicitEvent).force_due 9).1.completionHistory =
      (sampleChore .due .done .done .implicitEvent).completionHistory :=
  ⟨(choresC6_history (sampleChore .due .done .done .implicitEvent) emptyEnv 9
      (by decide)).2.1,
   (choresC6_history (sampleChore .due .done .done .implicitEvent) emptyEnv 9
      (by decide)).2.2.2.2.1⟩

/-! ## C1 — the `dueSince` invariant -/

/-- The `dueSince` fields invariant that the code actually maintains:
non-null in `due`/`started`, null in `inactive`/`pending` (in
`completed` it may be either). -/
def dueInv (c : Chore) : Prop :=
  ((c.state = .due ∨ c.state = .started) → c.dueSince ≠ none) ∧
    ((c.state = .inactive ∨ c.state = .pending) → c.dueSince = none)

instance (c : Chore) : Decidable (dueInv c) := by
  unfold dueInv; infer_instance

/-- A freshly constructed chore (all defaults). -/
def c1Fresh : Chore := sampleChore .inactive .idle .idle .implicitEvent

/-- C1 counterexample: force a fresh chore to `due` at t=1, then force
it to `completed` at t=2. The chore is in `completed` — neither `due`
nor `started` — yet `dueSince` is still `some 1`: the claimed "non-null
iff state ∈ due/started" is false (`_set_state` clears `dueSince` only
on the transition into `inactive`, not into `completed`). -/
theorem choresC1_counterexample :
    (((c1Fresh.force_due 1).1.force_complete 2).1).state = .completed ∧
    (((c1Fresh.force_due 1).1.force_complete 2).1).state ≠ .due ∧
    (((c1Fresh.force_due 1).1.force_complete 2).1).state ≠ .started ∧
    (((c1Fresh.force_due 1).1.force_complete 2).1).dueSince = some 1 := by
  decide

theorem Chore.set_state_due_dueSince (c : Chore) (f : Bool) (now : Nat)
    (hne : ChoreState.due ≠ c.state) :
    (c.set_state .due f now).1.dueSince = some now := by
  unfold Chore.set_state
  rw [if_neg hne]
  rfl

theorem Chore.set_state_inactive_dueSince (c : Chore) (f : Bool) (now : Nat)
    (hne : ChoreState.inactive ≠ c.state) :
    (c.set_state .inactive f now).1.dueSince = none := by
  unfold Chore.set_state
  rw [if_neg hne]
  rfl

theorem Chore.set_state_pending_dueSince (c : Chore) (f : Bool) (now : Nat)
    (hne : ChoreState.pending ≠ c.state) :
    (c.set_state .pending f now).1.dueSince = c.dueSince := by
  unfold Chore.set_state
  rw [if_neg hne]
  rfl

theorem Chore.set_state_started_dueSince (c : Chore) (f : Bool) (now : Nat)
    (hne : ChoreState.started ≠ c.state) :
    (c.set_state .started f now).1.dueSince = c.dueSince := by
  unfold Chore.set_state
  rw [if_neg hne]
  rfl

theorem Chore.set_state_completed_dueSince (c : Chore) (f : Bool) (now : Nat)
    (hne : ChoreState.completed ≠ c.state) :
    (c.set_state .completed f now).1.dueSince = c.dueSince := by
  unfold Chore.set_state
  rw [if_neg hne]
  rfl

theorem Chore.force_due_parts (c : Chore) (now : Nat) :
    (c.force_due now).1.state = .due ∧
    (c.force_due now).1.dueSince =
      (if ChoreState.due = c.state then c.dueSince else some now) := by
  unfold Chore.force_due
  refine ⟨Chore.set_state_fst_state .., ?_⟩
  by_cases hc : ChoreState.due = c.state
  · rw [if_pos hc, Chore.set_state_self
      { c with trigger := c.trigger.set_state .done now
               completion := (c.completion.reset now).enable } .due true now
      (show ChoreState.due = _ from hc)]
  · rw [if_neg hc]
    exact Chore.set_state_due_dueSince
      { c with trigger := c.trigger.set_state .done now
               completion := (c.completion.reset now).enable } true now hc

theorem Chore.force_inactive_parts (c : Chore) (now : Nat) :
    (c.force_inactive now).1.state = .inactive ∧
    (c.force_inactive now).1.dueSince =
      (if ChoreState.inactive = c.state then c.dueSince else none) := by
  unfold Chore.force_inactive
  refine ⟨Chore.set_state_fst_state .., ?_⟩
  by_cases hc : ChoreState.inactive = c.state
  · rw [if_pos hc, Chore.set_state_self
      { c with trigger := c.trigger.reset now
               completion := c.completion.reset now } .inactive true now
      (show ChoreState.inactive = _ from hc)]
  · rw [if_neg hc]
    exact Chore.set_state_inactive_dueSince
      { c with trigger := c.trigger.reset now
               completion := c.completion.reset now } true now hc

theorem Chore.force_complete_parts (c : Chore) (now : Nat) :
    (c.force_complete now).1.state = .completed ∧
    (c.force_complete now).1.dueSince = c.dueSince := by
  unfold Chore.force_complete
  refine ⟨Chore.set_state_fst_state .., ?_⟩
  by_cases hc : ChoreState.completed = c.state
  · rw [Chore.set_state_self
      { c with completion := ((c.completion.set_state .done now).1).disable }
      .completed true now (show ChoreState.completed = _ from hc)]
  · exact Chore.set_state_completed_dueSince
      { c with completion := ((c.completion.set_state .done now).1).disable }
      true now hc

/-- State and `dueSince` of one `evaluate` call, by branch. -/
theorem Chore.evaluate_parts (c : Chore) (env : Env) (h : dueInv c) :
    dueInv (c.evaluate env).1 ∧
      (c.dueSince ≠ none →
        ((c.evaluate env).1.dueSince = none ↔
          (c.evaluate env).1.state = .inactive)) := by
  set c2 := { c with trigger := c.trigger.evaluate env } with hc2
  have hc2s : c2.state = c.state := by rw [hc2]
  have hc2d : c2.dueSince = c.dueSince := by rw [hc2]
  cases hs : c.state
  case inactive =>
    have hnone : c.dueSince = none := h.2 (Or.inl hs)
    rw [Chore.evaluate_of_inactive c env hs, ← hc2]
    unfold Chore.evaluate_inactive
    by_cases h1 : c2.trigger.state = .done
    · rw [if_pos h1]
      have hne : ChoreState.due ≠ ({ c2 with completion := c2.completion.enable } : Chore).state := by
        show ChoreState.due ≠ c2.state
        rw [hc2s, hs]
        decide
      have hds := Chore.set_state_due_dueSince
        { c2 with completion := c2.completion.enable } false env.now hne
      constructor
      · constructor
        · intro _
          rw [hds]
          simp
        · intro hx
          rw [Chore.set_state_fst_state] at hx
          rcases hx with hx | hx <;> exact absurd hx (by decide)
      · intro hd
        exact absurd hnone hd
    · rw [if_neg h1]
      by_cases h2 : c2.trigger.state = .active
      · rw [if_pos h2]
        have hne : ChoreState.pending ≠ c2.state := by
          rw [hc2s, hs]
          decide
        have hds := Chore.set_state_pending_dueSince c2 false env.now hne
        constructor
        · constructor
          · intro hx
            rw [Chore.set_state_fst_state] at hx
            rcases hx with hx | hx <;> exact absurd hx (by decide)
          · intro _
            rw [hds, hc2d]
            exact hnone
        · intro hd
          exact absurd hnone hd
      · rw [if_neg h2]
        constructor
        · constructor
          · intro hx
            rw [hc2s] at hx
            rw [hs] at hx
            rcases hx with hx | hx <;> exact absurd hx (by decide)
          · intro _
            rw [hc2d]
            exact hnone
        · intro hd
          exact absurd hnone hd
  case pending =>
    have hnone : c.dueSince = none := h.2 (Or.inr hs)
    rw [Chore.evaluate_of_pending c env hs, ← hc2]
    unfold Chore.evaluate_pending
    by_cases h1 : c2.trigger.state = .done
    · rw [if_pos h1]
      have hne : ChoreState.due ≠ ({ c2 with completion := c2.completion.enable } : Chore).state := by
        show ChoreState.due ≠ c2.state
        rw [hc2s, hs]
        decide
      have hds := Chore.set_state_due_dueSince
        { c2 with completion := c2.completion.enable } false env.now hne
      constructor
      · constructor
        · intro _
          rw [hds]
          simp
        · intro hx
          rw [Chore.set_state_fst_state] at hx
          rcases hx with hx | hx <;> exact absurd hx (by decide)
      · intro hd
        exact absurd hnone hd
    · rw [if_neg h1]
      by_cases h2 : c2.trigger.state = .idle
      · rw [if_pos h2]
        have hne : ChoreState.inactive ≠ c2.state := by
          rw [hc2s, hs]
          decide
        have hds := Chore.set_state_inactive_dueSince c2 false env.now hne
        constructor
        · constructor
          · intro hx
            rw [Chore.set_state_fst_state] at hx
            rcases hx with hx | hx <;> exact absurd hx (by decide)
          · intro _
            exact hds
        · intro hd
          exact absurd hnone hd
      · rw [if_neg h2]
        constructor
        · constructor
          · intro hx
            rw [hc2s, hs] at hx
            rcases hx with hx | hx <;> exact absurd hx (by decide)
          · intro _
            rw [hc2d]
            exact hnone
        · intro hd
          exact absurd hnone hd
  case due =>
    have hsome : c.dueSince ≠ none := h.1 (Or.inl hs)
    rw [Chore.evaluate_of_due c env hs, ← hc2]
    unfold Chore.evaluate_due
    by_cases h1 : c2.completion.state = .done
    · rw [if_pos h1]
      have hne : ChoreState.completed ≠ c2.state := by
        rw [hc2s, hs]
        decide
      have hds := Chore.set_state_completed_dueSince c2 false env.now hne
      constructor
      · constructor
        · intro hx
          rw [Chore.set_state_fst_state] at hx
          rcases hx with hx | hx <;> exact absurd hx (by decide)
        · intro hx
          rw [Chore.set_state_fst_state] at hx
          rcases hx with hx | hx <;> exact absurd hx (by decide)
      · intro _
        rw [hds, hc2d]
        constructor
        · intro hx
          exact absurd hx hsome
        · intro hx
          rw [Chore.set_state_fst_state] at hx
          exact absurd hx (by decide)
    · rw [if_neg h1]
      by_cases h2 : c2.completion.state = .active
      · rw [if_pos h2]
        have hne : ChoreState.started ≠ c2.state := by
          rw [hc2s, hs]
          decide
        have hds := Chore.set_state_started_dueSince c2 false env.now hne
        constructor
        · constructor
          · intro _
            rw [hds, hc2d]
            exact hsome
          · intro hx
            rw [Chore.set_state_fst_state] at hx
            rcases hx with hx | hx <;> exact absurd hx (by decide)
        · intro _
          rw [hds, hc2d]
          constructor
          · intro hx
            exact absurd hx hsome
          · intro hx
            rw [Chore.set_state_fst_state] at hx
            exact absurd hx (by decide)
      · rw [if_neg h2]
        constructor
        · constructor
          · intro _
            rw [hc2d]
            exact hsome
          · intro hx
            rw [hc2s, hs] at hx
            rcases hx with hx | hx <;> exact absurd hx (by decide)
        · intro _
          rw [hc2d, hc2s, hs]
          constructor
          · intro hx
            exact absurd hx hsome
          · intro hx
            exact absurd hx (by decide)
  case started =>
    have hsome : c.dueSince ≠ none := h.1 (Or.inr hs)
    rw [Chore.evaluate_of_started c env hs, ← hc2]
    unfold Chore.evaluate_started
    by_cases h1 : c2.completion.state = .done
    · rw [if_pos h1]
      have hne : ChoreState.completed ≠ c2.state := by
        rw [hc2s, hs]
        decide
      have hds := Chore.set_state_completed_dueSince c2 false env.now hne
      constructor
      · constructor
        · intro hx
          rw [Chore.set_state_fst_state] at hx
          rcases hx with hx | hx <;> exact absurd hx (by decide)
        · intro hx
          rw [Chore.set_state_fst_state] at hx
          rcases hx with hx | hx <;> exact absurd hx (by decide)
      · intro _
        rw [hds, hc2d]
        constructor
        · intro hx
          exact absurd hx hsome
        · intro hx
          rw [Chore.set_state_fst_state] at hx
          exact absurd hx (by decide)
    · rw [if_neg h1]
      constructor
      · constructor
        · intro _
          rw [hc2d]
          exact hsome
        · intro hx
          rw [hc2s, hs] at hx
          rcases hx with hx | hx <;> exact absurd hx (by decide)
      · intro _
        rw [hc2d, hc2s, hs]
        constructor
        · intro hx
          exact absurd hx hsome
        · intro hx
          exact absurd hx (by decide)
  case completed =>
    rw [Chore.evaluate_of_completed c env hs, ← hc2]
    unfold Chore.evaluate_completed
    by_cases h1 : c2.reset.should_reset c2.stateEnteredAt env = true
    · rw [if_pos h1]
      have hne : ChoreState.inactive ≠
          ({ c2 with trigger := c2.trigger.reset env.now
                     completion := c2.completion.reset env.now } : Chore).state := by
        show ChoreState.inactive ≠ c2.state
        rw [hc2s, hs]
        decide
      have hds := Chore.set_state_inactive_dueSince
        { c2 with trigger := c2.trigger.reset env.now
                  completion := c2.completion.reset env.now } false env.now hne
      constructor
      · constructor
        · intro hx
          rw [Chore.set_state_fst_state] at hx
          rcases hx with hx | hx <;> exact absurd hx (by decide)
        · intro _
          exact hds
      · intro _
        rw [hds, Chore.set_state_fst_state]
        simp
    · rw [if_neg h1]
      constructor
      · constructor
        · intro hx
          rw [hc2s, hs] at hx
          rcases hx with hx | hx <;> exact absurd hx (by decide)
        · intro hx
          rw [hc2s, hs] at hx
          rcases hx with hx | hx <;> exact absurd hx (by decide)
      · intro hd
        rw [hc2d, hc2s, hs]
        constructor
        · intro hx
          exact absurd hx hd
        · intro hx
          exact absurd hx (by decide)

/-- C1 (amended): `dueSince` is non-null in `due`/`started` and null in
`inactive`/`pending` — an invariant that holds at construction and is
preserved by `evaluate` and every force action — and, for a chore whose
`dueSince` is set, it becomes null exactly on the transition into
`inactive`. In `completed` the field may stay non-null (the
counterexample), so the claimed iff does not hold there. -/
theorem choresC1_dueSince_invariant (c : Chore) (env : Env) (now : Nat)
    (h : dueInv c) :
    dueInv (c.evaluate env).1 ∧
    dueInv (c.force_due now).1 ∧
    dueInv (c.force_inactive now).1 ∧
    dueInv (c.force_complete now).1 ∧
    (c.dueSince ≠ none →
      (((c.evaluate env).1.dueSince = none ↔ (c.evaluate env).1.state = .inactive) ∧
       ((c.force_due now).1.dueSince = none ↔
         (c.force_due now).1.state = .inactive) ∧
       ((c.force_inactive now).1.dueSince = none ↔
         (c.force_inactive now).1.state = .inactive) ∧
       ((c.force_complete now).1.dueSince = none ↔
         (c.force_complete now).1.state = .inactive))) ∧
    (∀ cfg n c0, Chore.create cfg n = .ok c0 → dueInv c0) := by
  obtain ⟨hfdS, hfdD⟩ := Chore.force_due_parts c now
  obtain ⟨hfiS, hfiD⟩ := Chore.force_inactive_parts c now
  obtain ⟨hfcS, hfcD⟩ := Chore.force_complete_parts c now
  obtain ⟨hevI, hevN⟩ := Chore.evaluate_parts c env h
  refine ⟨hevI, ?_, ?_, ?_, ?_, ?_⟩
  · constructor
    · intro _
      rw [hfdD]
      split_ifs with hc
      · exact h.1 (Or.inl hc.symm)
      · simp
    · intro hx
      rw [hfdS] at hx
      rcases hx with hx | hx <;> exact absurd hx (by decide)
  · constructor
    · intro hx
      rw [hfiS] at hx
      rcases hx with hx | hx <;> exact absurd hx (by decide)
    · intro _
      rw [hfiD]
      split_ifs with hc
      · exact h.2 (Or.inl hc.symm)
      · rfl
  · constructor
    · intro hx
      rw [hfcS] at hx
      rcases hx with hx | hx <;> exact absurd hx (by decide)
    · intro hx
      rw [hfcS] at hx
      rcases hx with hx | hx <;> exact absurd hx (by decide)
  · intro hd
    refine ⟨hevN hd, ?_, ?_, ?_⟩
    · rw [hfdS, hfdD]
      split_ifs with hc
      · constructor
        · intro hx
          exact absurd hx hd
        · intro hx
          exact absurd hx (by decide)
      · constructor
        · intro hx
          exact absurd hx (by simp)
        · intro hx
          exact absurd hx (by decide)
    · rw [hfiS, hfiD]
      split_ifs with hc
      · constructor
        · intro _
          rfl
        · intro _
          have := h.2 (Or.inl hc.symm)
          exact this
      · constructor
        · intro _
          rfl
        · intro _
          rfl
    · rw [hfcS, hfcD]
      constructor
      · intro hx
        exact absurd hx hd
      · intro hx
        exact absurd hx (by decide)
  · intro cfg n c0 hok
    unfold Chore.create at hok
    cases htr : create_trigger cfg.trigger n with
    | error m =>
      rw [htr] at hok
      simp [Bind.bind, Except.bind] at hok
    | ok t =>
      cases hcm : create_completion (cfg.completion.getD {}) n with
      | error m =>
        rw [htr, hcm] at hok
        simp [Bind.bind, Except.bind] at hok
      | ok comp =>
        rw [htr, hcm] at hok
        simp only [Bind.bind, Except.bind, Except.ok.injEq] at hok
        rw [← hok]
        constructor
        · intro hx
          rcases hx with hx | hx <;> simp at hx
        · intro _
          rfl

/-- Witness for C1 at a concrete due chore with `dueSince = some 5`. -/
theorem choresC1_witness :
    dueInv ((sampleChore .due .done .idle .implicitEvent).evaluate emptyEnv).1 ∧
    dueInv ((sampleChore .due .done .idle .implicitEvent).force_due 8).1 :=
  ⟨(choresC1_dueSince_invariant (sampleChore .due .done .idle .implicitEvent)
      emptyEnv 8 (by decide)).1,
   (choresC1_dueSince_invariant (sampleChore .due .done .idle .implicitEvent)
      emptyEnv 8 (by decide)).2.1⟩

/-! ## C2 — evaluate: one transition per call, and non-idempotence

The amended stability clause needs that a second trigger evaluation
under the same environment is a no-op; that holds for every variant. -/

theorem powerEvaluate_of_ne_active (b : TrigBase) (d : PowerCycleData) (env : Env)
    (h : ¬b.state = .active) : powerEvaluate b d env = (b, d) := by
  unfold powerEvaluate
  split
  · rw [if_neg (fun hc => h hc.1)]
  · rfl

theorem powerEvaluate_idem (b : TrigBase) (d : PowerCycleData) (env : Env) :
    powerEvaluate (powerEvaluate b d env).1 (powerEvaluate b d env).2 env =
      powerEvaluate b d env := by
  cases hpd : d.powerDroppedAt with
  | none =>
    have hfirst : powerEvaluate b d env = (b, d) := by
      unfold powerEvaluate
      rw [hpd]
    rw [hfirst]
    exact hfirst
  | some t0 =>
    have hfirst : powerEvaluate b d env =
        (if b.state = .active ∧ (env.now : Int) - t0 ≥ d.cooldownMinutes * 60 then
          ((b.set_state .done env.now).1, { d with machineRunning := false })
        else (b, d)) := by
      unfold powerEvaluate
      rw [hpd]
    by_cases h1 : b.state = .active ∧ (env.now : Int) - t0 ≥ d.cooldownMinutes * 60
    · rw [hfirst, if_pos h1]
      refine powerEvaluate_of_ne_active _ _ _ ?_
      rw [TrigBase.set_state_base_state]
      decide
    · rw [hfirst, if_neg h1, hfirst, if_neg h1]

theorem dailyEvaluate_of_fired (b : TrigBase) (d : DailyData) (env : Env)
    (h : d.timeFiredToday = true) : dailyEvaluate b d env = (b, d) := by
  unfold dailyEvaluate
  rw [if_neg (fun hc => by rw [h] at hc; exact hc.2 rfl)]

theorem dailyEvaluate_idem (b : TrigBase) (d : DailyData) (env : Env) :
    dailyEvaluate (dailyEvaluate b d env).1 (dailyEvaluate b d env).2 env =
      dailyEvaluate b d env := by
  by_cases h1 : b.state = .idle ∧ ¬d.timeFiredToday
  · by_cases h2 : env.minuteOfDay ≥ d.timeM
    · have hfirst : dailyEvaluate b d env =
          (timeFire b d.gate env, { d with timeFiredToday := true }) := by
        unfold dailyEvaluate
        rw [if_pos h1, if_pos h2]
      rw [hfirst]
      exact dailyEvaluate_of_fired _ _ _ rfl
    · have hfirst : dailyEvaluate b d env = (b, d) := by
        unfold dailyEvaluate
        rw [if_pos h1, if_neg h2]
      rw [hfirst]
      exact hfirst
  · have hfirst : dailyEvaluate b d env = (b, d) := by
      unfold dailyEvaluate
      rw [if_neg h1]
    rw [hfirst]
    exact hfirst

theorem weeklyEvaluate_of_fired (b : TrigBase) (d : WeeklyData) (env : Env)
    (h : d.timeFiredToday = true) : weeklyEvaluate b d env = (b, d) := by
  unfold weeklyEvaluate
  rw [if_neg (fun hc => by rw [h] at hc; exact hc.2 rfl)]

theorem weeklyEvaluate_idem (b : TrigBase) (d : WeeklyData) (env : Env) :
    weeklyEvaluate (weeklyEvaluate b d env).1 (weeklyEvaluate b d env).2 env =
      weeklyEvaluate b d env := by
  by_cases h1 : b.state = .idle ∧ ¬d.timeFiredToday
  · cases htt : todaysTriggerTime d.schedule env.weekday with
    | none =>
      have hfirst : weeklyEvaluate b d env = (b, d) := by
        unfold weeklyEvaluate
        rw [if_pos h1, htt]
      rw [hfirst]
      exact hfirst
    | some tm =>
      by_cases h2 : env.minuteOfDay ≥ tm
      · have hfirst : weeklyEvaluate b d env =
            (timeFire b d.gate env, { d with timeFiredToday := true }) := by
          unfold weeklyEvaluate
          rw [if_pos h1, htt]
          show (if env.minuteOfDay ≥ tm then
              (timeFire b d.gate env, { d with timeFiredToday := true })
            else (b, d)) = _
          rw [if_pos h2]
        rw [hfirst]
        exact weeklyEvaluate_of_fired _ _ _ rfl
      · have hfirst : weeklyEvaluate b d env = (b, d) := by
          unfold weeklyEvaluate
          rw [if_pos h1, htt]
          show (if env.minuteOfDay ≥ tm then
              (timeFire b d.gate env, { d with timeFiredToday := true })
            else (b, d)) = _
          rw [if_neg h2]
        rw [hfirst]
        exact hfirst
  · have hfirst : weeklyEvaluate b d env = (b, d) := by
      unfold weeklyEvaluate
      rw [if_neg h1]
    rw [hfirst]
    exact hfirst

theorem durIn_of_out (env : Env) (d : DurationData)
    (h : durOutOfTarget env d = true) : durInTarget env d = false := by
  unfold durInTarget durOutOfTarget at *
  cases hs : env.states d.entityId with
  | none =>
    rw [hs] at h
  | some s =>
    rw [hs] at h
    have h2 : decide (s ≠ "unknown" ∧ s ≠ "unavailable" ∧ s ≠ d.targetState) =
        true := h
    show decide (s ≠ "unknown" ∧ s ≠ "unavailable" ∧ s = d.targetState) = false
    rw [decide_eq_true_eq] at h2
    rw [decide_eq_false_iff_not]
    intro hc
    exact h2.2.2 hc.2.2

theorem durOut_of_in (env : Env) (d : DurationData)
    (h : durInTarget env d = true) : durOutOfTarget env d = false := by
  unfold durInTarget durOutOfTarget at *
  cases hs : env.states d.entityId with
  | none =>
    rw [hs] at h
  | some s =>
    rw [hs] at h
    have h2 : decide (s ≠ "unknown" ∧ s ≠ "unavailable" ∧ s = d.targetState) =
        true := h
    show decide (s ≠ "unknown" ∧ s ≠ "unavailable" ∧ s ≠ d.targetState) = false
    rw [decide_eq_true_eq] at h2
    rw [decide_eq_false_iff_not]
    intro hc
    exact hc.2.2 h2.2.2

theorem durationIdleStep_of_ne_idle (b : TrigBase) (d : DurationData) (env : Env)
    (h : ¬b.state = .idle) : durationIdleStep b d env = (b, d) := by
  unfold durationIdleStep
  rw [if_neg h]

theorem durationIdleStep_of_not_target (b : TrigBase) (d : DurationData) (env : Env)
    (h : durInTarget env d = false) : durationIdleStep b d env = (b, d) := by
  unfold durationIdleStep
  by_cases hb : b.state = .idle
  · rw [if_pos hb, h]
    rfl
  · rw [if_neg hb]

theorem durationActiveStep_of_ne_active (b : TrigBase) (d : DurationData) (env : Env)
    (h : ¬b.state = .active) : durationActiveStep b d env = (b, d) := by
  unfold durationActiveStep
  rw [if_neg h]

theorem durationActiveStep_of_none (b : TrigBase) (d : DurationData) (env : Env)
    (h : d.stateSince = none) : durationActiveStep b d env = (b, d) := by
  unfold durationActiveStep
  by_cases hb : b.state = .active
  · rw [if_pos hb, h]
  · rw [if_neg hb]

/-- The active block with the guards exposed as a plain if-chain. -/
theorem durationActiveStep_eq (b : TrigBase) (d : DurationData) (env : Env)
    (hb : b.state = .active) (s : Nat) (hs : d.stateSince = some s) :
    durationActiveStep b d env =
      (if ¬d.durationElapsed then
        if durOutOfTarget env d then
          ((b.set_state .idle env.now).1, { d with stateSince := none })
        else
          if (((env.now : Int) - s : Int) : Rat) ≥ d.durationHours * 3600 then
            if d.gate.isSome then
              if gateMet env d.gate then
                ((b.set_state .done env.now).1, { d with durationElapsed := true })
              else (b, { d with durationElapsed := true })
            else ((b.set_state .done env.now).1, { d with durationElapsed := true })
          else (b, d)
      else
        if d.gate.isSome then
          if gateMet env d.gate then ((b.set_state .done env.now).1, d) else (b, d)
        else (b, d)) := by
  unfold durationActiveStep
  rw [if_pos hb, hs]

theorem durationEvaluate_idem (b : TrigBase) (d : DurationData) (env : Env) :
    durationEvaluate (durationEvaluate b d env).1 (durationEvaluate b d env).2 env =
      durationEvaluate b d env := by
  have hfix : ∀ bA dA, bA.state = .active → ∀ s, dA.stateSince = some s →
      durationEvaluate (durationActiveStep bA dA env).1
        (durationActiveStep bA dA env).2 env = durationActiveStep bA dA env := by
    intro bA dA hbA s hsA
    rw [durationActiveStep_eq bA dA env hbA s hsA]
    by_cases hde : dA.durationElapsed
    · rw [if_neg (by simpa using hde)]
      by_cases hg : dA.gate.isSome
      · rw [if_pos hg]
        by_cases hm : gateMet env dA.gate
        · rw [if_pos hm]
          unfold durationEvaluate
          rw [durationIdleStep_of_ne_idle _ _ _
            (by simp [TrigBase.set_state_base_state])]
          exact durationActiveStep_of_ne_active _ _ _
            (by simp [TrigBase.set_state_base_state])
        · rw [if_neg hm]
          unfold durationEvaluate
          rw [durationIdleStep_of_ne_idle _ _ _ (by simp [hbA])]
          rw [durationActiveStep_eq bA dA env hbA s hsA]
          rw [if_neg (by simpa using hde), if_pos hg, if_neg hm]
      · rw [if_neg hg]
        unfold durationEvaluate
        rw [durationIdleStep_of_ne_idle _ _ _ (by simp [hbA])]
        rw [durationActiveStep_eq bA dA env hbA s hsA]
        rw [if_neg (by simpa using hde), if_neg hg]
    · rw [if_pos (by simpa using hde)]
      by_cases hout : durOutOfTarget env dA
      · rw [if_pos hout]
        unfold durationEvaluate
        rw [durationIdleStep_of_not_target _ _ _
          (show durInTarget env { dA with stateSince := none } = false from
            durIn_of_out env dA hout)]
        exact durationActiveStep_of_none _ _ _ rfl
      · rw [if_neg hout]
        by_cases hen : (((env.now : Int) - s : Int) : Rat) ≥ dA.durationHours * 3600
        · rw [if_pos hen]
          by_cases hg : dA.gate.isSome
          · rw [if_pos hg]
            by_cases hm : gateMet env dA.gate
            · rw [if_pos hm]
              unfold durationEvaluate
              rw [durationIdleStep_of_ne_idle _ _ _
                (by simp [TrigBase.set_state_base_state])]
              exact durationActiveStep_of_ne_active _ _ _
                (by simp [TrigBase.set_state_base_state])
            · rw [if_neg hm]
              unfold durationEvaluate
              rw [durationIdleStep_of_ne_idle _ _ _ (by simp [hbA])]
              rw [durationActiveStep_eq bA
                { dA with durationElapsed := true } env hbA s hsA]
              rw [if_neg (by simp), if_pos hg, if_neg hm]
          · rw [if_neg hg]
            unfold durationEvaluate
            rw [durationIdleStep_of_ne_idle _ _ _
              (by simp [TrigBase.set_state_base_state])]
            exact durationActiveStep_of_ne_active _ _ _
              (by simp [TrigBase.set_state_base_state])
        · rw [if_neg hen]
          unfold durationEvaluate
          rw [durationIdleStep_of_ne_idle _ _ _ (by simp [hbA])]
          rw [durationActiveStep_eq bA dA env hbA s hsA]
          rw [if_pos (by simpa using hde), if_neg hout, if_neg hen]
  unfold durationEvaluate
  by_cases hb0 : b.state = .idle
  · by_cases hin : durInTarget env d
    · have hI : durationIdleStep b d env =
          ((b.set_state .active env.now).1,
            { d with stateSince := some (d.stateSince.getD env.now) }) := by
        unfold durationIdleStep
        rw [if_pos hb0, hin]
        rfl
      rw [hI]
      exact hfix _ _ (TrigBase.set_state_base_state ..) _ rfl
    · have hI : durationIdleStep b d env = (b, d) :=
        durationIdleStep_of_not_target _ _ _ (by simpa using hin)
      rw [hI]
      have hA : durationActiveStep b d env = (b, d) :=
        durationActiveStep_of_ne_active _ _ _ (by simp [hb0])
      rw [hA, hI, hA]
  · have hI : durationIdleStep b d env = (b, d) :=
      durationIdleStep_of_ne_idle _ _ _ hb0
    rw [hI]
    by_cases hbA : b.state = .active
    · cases hsA : d.stateSince with
      | none =>
        have hA : durationActiveStep b d env = (b, d) :=
          durationActiveStep_of_none _ _ _ hsA
        rw [hA, hI, hA]
      | some s => exact hfix b d hbA s hsA
    · have hA : durationActiveStep b d env = (b, d) :=
        durationActiveStep_of_ne_active _ _ _ hbA
      rw [hA, hI, hA]

/-- A second trigger evaluation under the same environment is a no-op,
for every trigger variant. -/
theorem Trigger.evaluate_idem (t : Trigger) (env : Env) :
    (t.evaluate env).evaluate env = t.evaluate env := by
  obtain ⟨base, data⟩ := t
  cases data with
  | powerCycle d =>
    simp only [Trigger.evaluate]
    rw [powerEvaluate_idem]
  | stateChange d => rfl
  | daily d =>
    simp only [Trigger.evaluate]
    rw [dailyEvaluate_idem]
  | weekly d =>
    simp only [Trigger.evaluate]
    rw [weeklyEvaluate_idem]
  | duration d =>
    simp only [Trigger.evaluate]
    rw [durationEvaluate_idem]

/-- The chore in state `due` with a `done` completion that the C2
counterexample evaluates twice. -/
def c2Chore : Chore := sampleChore .due .done .done .implicitEvent

/-- C2 counterexample: with no new external signal between the calls
(identical environment), the first `evaluate` fires due→completed and
the second fires completed→inactive (the implicit event reset is
immediate): the second call is not a no-op and does not report "no
change", refuting the claimed idempotence. -/
theorem choresC2_counterexample :
    (c2Chore.evaluate emptyEnv).2 = some .due ∧
      ((c2Chore.evaluate emptyEnv).1.evaluate emptyEnv).2 = some .completed := by
  constructor <;> decide

/-- C2 (amended): each `evaluate` call performs at most one chore-state
transition and returns the previous state exactly when a transition
fired (`none` means the state is unchanged); and a call that reports no
change is stable — evaluating again under the same environment again
reports no change. A call that *did* fire a transition may be followed
by another transition on the next call even with no new external signal
(see the counterexample), so `evaluate` is not idempotent as claimed. -/
theorem choresC2_evaluate_transitions (c : Chore) (env : Env) :
    ((c.evaluate env).2 = none → (c.evaluate env).1.state = c.state) ∧
    (∀ s, (c.evaluate env).2 = some s →
      s = c.state ∧ (c.evaluate env).1.state ≠ c.state) ∧
    ((c.evaluate env).2 = none → ((c.evaluate env).1.evaluate env).2 = none) := by
  set c2 := { c with trigger := c.trigger.evaluate env } with hc2
  have hc2s : c2.state = c.state := by rw [hc2]
  have hidem : c2.trigger.evaluate env = c2.trigger := by
    rw [hc2]
    exact Trigger.evaluate_idem c.trigger env
  have hre : ({ c2 with trigger := c2.trigger.evaluate env } : Chore) = c2 := by
    rw [hidem]
  cases hs : c.state
  case inactive =>
    rw [Chore.evaluate_of_inactive c env hs, ← hc2]
    unfold Chore.evaluate_inactive
    by_cases h1 : c2.trigger.state = .done
    · rw [if_pos h1]
      rw [Chore.set_state_snd]
      rw [if_neg (show ¬ChoreState.due = ({ c2 with
          completion := c2.completion.enable } : Chore).state by
        show ¬ChoreState.due = c2.state
        rw [hc2s, hs]
        decide)]
      refine ⟨fun hx => absurd hx (by simp), ?_, fun hx => absurd hx (by simp)⟩
      intro s hx
      rw [Option.some_inj] at hx
      refine ⟨?_, ?_⟩
      · rw [← hx]
        show c2.state = _
        rw [hc2s, hs]
      · rw [Chore.set_state_fst_state]
        decide
    · rw [if_neg h1]
      by_cases h2 : c2.trigger.state = .active
      · rw [if_pos h2]
        rw [Chore.set_state_snd]
        rw [if_neg (show ¬ChoreState.pending = c2.state by
          rw [hc2s, hs]
          decide)]
        refine ⟨fun hx => absurd hx (by simp), ?_, fun hx => absurd hx (by simp)⟩
        intro s hx
        rw [Option.some_inj] at hx
        refine ⟨?_, ?_⟩
        · rw [← hx]
          rw [hc2s, hs]
        · rw [Chore.set_state_fst_state]
          decide
      · rw [if_neg h2]
        refine ⟨fun _ => hc2s.trans hs, ?_, ?_⟩
        · intro s hx
          exact absurd hx (by simp)
        · intro _
          rw [Chore.evaluate_of_inactive c2 env (hc2s.trans hs), hre]
          unfold Chore.evaluate_inactive
          rw [if_neg h1, if_neg h2]
  case pending =>
    rw [Chore.evaluate_of_pending c env hs, ← hc2]
    unfold Chore.evaluate_pending
    by_cases h1 : c2.trigger.state = .done
    · rw [if_pos h1]
      rw [Chore.set_state_snd]
      rw [if_neg (show ¬ChoreState.due = ({ c2 with
          completion := c2.completion.enable } : Chore).state by
        show ¬ChoreState.due = c2.state
        rw [hc2s, hs]
        decide)]
      refine ⟨fun hx => absurd hx (by simp), ?_, fun hx => absurd hx (by simp)⟩
      intro s hx
      rw [Option.some_inj] at hx
      refine ⟨?_, ?_⟩
      · rw [← hx]
        show c2.state = _
        rw [hc2s, hs]
      · rw [Chore.set_state_fst_state]
        decide
    · rw [if_neg h1]
      by_cases h2 : c2.trigger.state = .idle
      · rw [if_pos h2]
        rw [Chore.set_state_snd]
        rw [if_neg (show ¬ChoreState.inactive = c2.state by
          rw [hc2s, hs]
          decide)]
        refine ⟨fun hx => absurd hx (by simp), ?_, fun hx => absurd hx (by simp)⟩
        intro s hx
        rw [Option.some_inj] at hx
        refine ⟨?_, ?_⟩
        · rw [← hx]
          rw [hc2s, hs]
        · rw [Chore.set_state_fst_state]
          decide
      · rw [if_neg h2]
        refine ⟨fun _ => hc2s.trans hs, ?_, ?_⟩
        · intro s hx
          exact absurd hx (by simp)
        · intro _
          rw [Chore.evaluate_of_pending c2 env (hc2s.trans hs), hre]
          unfold Chore.evaluate_pending
          rw [if_neg h1, if_neg h2]
  case due =>
    rw [Chore.evaluate_of_due c env hs, ← hc2]
    unfold Chore.evaluate_due
    by_cases h1 : c2.completion.state = .done
    · rw [if_pos h1]
      rw [Chore.set_state_snd]
      rw [if_neg (show ¬ChoreState.completed = c2.state by
        rw [hc2s, hs]
        decide)]
      refine ⟨fun hx => absurd hx (by simp), ?_, fun hx => absurd hx (by simp)⟩
      intro s hx
      rw [Option.some_inj] at hx
      refine ⟨?_, ?_⟩
      · rw [← hx]
        rw [hc2s, hs]
      · rw [Chore.set_state_fst_state]
        decide
    · rw [if_neg h1]
      by_cases h2 : c2.completion.state = .active
      · rw [if_pos h2]
        rw [Chore.set_state_snd]
        rw [if_neg (show ¬ChoreState.started = c2.state by
          rw [hc2s, hs]
          decide)]
        refine ⟨fun hx => absurd hx (by simp), ?_, fun hx => absurd hx (by simp)⟩
        intro s hx
        rw [Option.some_inj] at hx
        refine ⟨?_, ?_⟩
        · rw [← hx]
          rw [hc2s, hs]
        · rw [Chore.set_state_fst_state]
          decide
      · rw [if_neg h2]
        refine ⟨fun _ => hc2s.trans hs, ?_, ?_⟩
        · intro s hx
          exact absurd hx (by simp)
        · intro _
          rw [Chore.evaluate_of_due c2 env (hc2s.trans hs), hre]
          unfold Chore.evaluate_due
          rw [if_neg h1, if_neg h2]
  case started =>
    rw [Chore.evaluate_of_started c env hs, ← hc2]
    unfold Chore.evaluate_started
    by_cases h1 : c2.completion.state = .done
    · rw [if_pos h1]
      rw [Chore.set_state_snd]
      rw [if_neg (show ¬ChoreState.completed = c2.state by
        rw [hc2s, hs]
        decide)]
      refine ⟨fun hx => absurd hx (by simp), ?_, fun hx => absurd hx (by simp)⟩
      intro s hx
      rw [Option.some_inj] at hx
      refine ⟨?_, ?_⟩
      · rw [← hx]
        rw [hc2s, hs]
      · rw [Chore.set_state_fst_state]
        decide
    · rw [if_neg h1]
      refine ⟨fun _ => hc2s.trans hs, ?_, ?_⟩
      · intro s hx
        exact absurd hx (by simp)
      · intro _
        rw [Chore.evaluate_of_started c2 env (hc2s.trans hs), hre]
        unfold Chore.evaluate_started
        rw [if_neg h1]
  case completed =>
    rw [Chore.evaluate_of_completed c env hs, ← hc2]
    unfold Chore.evaluate_completed
    by_cases h1 : c2.reset.should_reset c2.stateEnteredAt env = true
    · rw [if_pos h1]
      rw [Chore.set_state_snd]
      rw [if_neg (show ¬ChoreState.inactive = ({ c2 with
          trigger := c2.trigger.reset env.now
          completion := c2.completion.reset env.now } : Chore).state by
        show ¬ChoreState.inactive = c2.state
        rw [hc2s, hs]
        decide)]
      refine ⟨fun hx => absurd hx (by simp), ?_, fun hx => absurd hx (by simp)⟩
      intro s hx
      rw [Option.some_inj] at hx
      refine ⟨?_, ?_⟩
      · rw [← hx]
        show c2.state = _
        rw [hc2s, hs]
      · rw [Chore.set_state_fst_state]
        decide
    · rw [if_neg h1]
      refine ⟨fun _ => hc2s.trans hs, ?_, ?_⟩
      · intro s hx
        exact absurd hx (by simp)
      · intro _
        rw [Chore.evaluate_of_completed c2 env (hc2s.trans hs), hre]
        unfold Chore.evaluate_completed
        rw [if_neg h1]

/-- Witness for C2: a quiescent inactive chore reports no change, and
the follow-up call under the same environment also reports no change. -/
theorem choresC2_witness :
    (((sampleChore .inactive .idle .idle .implicitEvent).evaluate emptyEnv).1.evaluate
        emptyEnv).2 = none :=
  (choresC2_evaluate_transitions (sampleChore .inactive .idle .idle .implicitEvent)
      emptyEnv).2.2 (by decide)

/-- Witness for C4: the second of two consecutive `force_due` calls on a
concrete chore changes nothing and reports no change. -/
theorem choresC4_witness :
    (((sampleChore .inactive .idle .idle .implicitEvent).force_due 3).1.force_due 3) =
      (((sampleChore .inactive .idle .idle .implicitEvent).force_due 3).1, none) :=
  (choresC4_force_idempotent (sampleChore .inactive .idle .idle .implicitEvent) 3).2.2.2.1

end Chores
